import Mathlib

/-
  Verification of the sidcode procedural composition engine.

  The TypeScript sources are shallowly embedded: JS numbers appearing in
  purely rational computations are modelled as rationals, geometry that
  flows through transcendental functions (sin, cos, log, sqrt, atan2) is
  modelled over the reals, and the 32-bit integer arithmetic of the
  mulberry32 generator is modelled as naturals reduced modulo 2^32.
  Stateful randomness is threaded explicitly; JS records with optional
  fields become structures with Option fields.
-/

namespace Sidcode

/-! ## JS primitives -/

/-- The JS remainder operator on integers: truncated remainder, the sign
follows the dividend, as in `a % b`. -/
def jsMod (a b : Int) : Int := Int.tmod a b

/-- JS Math.round on an exact rational: round half toward positive
infinity. -/
def jsRound (x : ℚ) : ℤ := ⌊x + 1/2⌋

/-- JS truthiness of a string: every non-empty string is truthy. -/
def jsTruthyString (s : String) : Bool := s ≠ ""

/-! ## Color variation (src/lib/palettes.ts, varyColor) -/

/-- Value of one hex digit as parsed by JS parseInt(s, 16)
(case-insensitive). -/
def hexDigitVal (c : Char) : Option Nat :=
  if '0' ≤ c ∧ c ≤ '9' then some (c.toNat - 48)
  else if 'a' ≤ c ∧ c ≤ 'f' then some (c.toNat - 87)
  else if 'A' ≤ c ∧ c ≤ 'F' then some (c.toNat - 55)
  else none

/-- parseInt(hex pair, 16): the 8-bit channel value of two hex digits. -/
def parseHexByte (c1 c2 : Char) : Option Nat :=
  match hexDigitVal c1, hexDigitVal c2 with
  | some a, some b => some (16 * a + b)
  | _, _ => none

/-- Lines 60-61 of palettes.ts: hash = (seed * 9301 + 49297) % 233280,
rnd = hash / 233280. -/
def colorHash (seed : Int) : ℚ :=
  ((jsMod (seed * 9301 + 49297) 233280 : ℤ) : ℚ) / 233280

/-- Lines 69-70: variationAmount = (variation / 100) * 0.3 and
adjust = (rnd - 0.5) * 2 * variationAmount. -/
def colorAdjust (variation : ℚ) (seed : Int) : ℚ :=
  (colorHash seed - 0.5) * 2 * (variation / 100 * 0.3)

/-- Lines 72-74: newC = min(255, max(0, round(c * (1 + adjust)))). -/
def varyChannel (ch : Nat) (adjust : ℚ) : Nat :=
  (min 255 (max 0 (jsRound ((ch : ℚ) * (1 + adjust))))).toNat

/-- One hex digit character, lowercase, as produced by toString(16). -/
def hexDigitChar (n : Nat) : Char :=
  if n < 10 then Char.ofNat (48 + n) else Char.ofNat (87 + n)

/-- toString(16).padStart(2, "0") for a byte value. -/
def hexByte (n : Nat) : String := ⟨[hexDigitChar (n / 16), hexDigitChar (n % 16)]⟩

/-- varyColor (palettes.ts lines 54-77). Parses the three channels of a
6-hex-digit color, scales each by (1 + adjust), clamps to a byte and
re-encodes in lowercase hex. A string not of the parsed shape is
returned unchanged (in the source such input yields NaN arithmetic; the
claims only concern well-formed colors). -/
def varyColor (baseColor : String) (variation : ℚ) (seed : Int) : String :=
  match baseColor.data with
  | '#' :: h1 :: h2 :: h3 :: h4 :: h5 :: h6 :: [] =>
    match parseHexByte h1 h2, parseHexByte h3 h4, parseHexByte h5 h6 with
    | some r, some g, some b =>
      let adjust := colorAdjust variation seed
      "#" ++ hexByte (varyChannel r adjust) ++ hexByte (varyChannel g adjust)
          ++ hexByte (varyChannel b adjust)
    | _, _, _ => baseColor
  | _ => baseColor

/-- A 6-hex-digit RGB color string of the form used by the palettes. -/
def isValidHexColor (c : String) : Bool :=
  match c.data with
  | '#' :: rest => rest.length == 6 && rest.all (fun d => (hexDigitVal d).isSome)
  | _ => false

/-- The sixteen lowercase hex digit characters. -/
def lowerHexDigits : List Char :=
  ['0', '1', '2', '3', '4', '5'] ++ ['6', '7', '8', '9', 'a', 'b'] ++ ['c', 'd', 'e', 'f']

/-- A color string whose digits are all lowercase. -/
def isLowerHexColor (c : String) : Bool :=
  match c.data with
  | '#' :: rest => rest.length == 6 && rest.all (fun d => lowerHexDigits.contains d)
  | _ => false

/-! ## Seeded RNG (src/lib/random.ts, mulberry32) -/

/-- 2^32, the modulus of all 32-bit JS bitwise arithmetic. -/
def UINT32 : Nat := 4294967296

/-- The initial mulberry32 state: ToInt32(seed + 0x6d2b79f5), kept as the
unsigned 32-bit representative. -/
def initState (seed : Int) : Nat := ((seed + 0x6d2b79f5).emod (UINT32 : Int)).toNat

/-- One step of mulberry32 (createRandom in random.ts). JS Math.imul is a
32-bit product; additions and products are reduced mod 2^32, whose bits
agree with the signed int32 values the source manipulates. Returns the new
stored state together with the float result in [0, 1). -/
def mulberryStep (u : Nat) : Nat × ℚ :=
  let t1 := ((u ^^^ (u >>> 15)) * (u ||| 1)) % UINT32
  let e := ((t1 ^^^ (t1 >>> 7)) * (t1 ||| 61)) % UINT32
  let t2 := t1 ^^^ ((t1 + e) % UINT32)
  (t2, ((t2 ^^^ (t2 >>> 14) : Nat) : ℚ) / (UINT32 : ℚ))

/-- The mulberry32 generator state, threaded explicitly through every
random decision. -/
abbrev RngState := Nat

/-- random(): draw one float in [0, 1). -/
def rnd (s : RngState) : RngState × ℚ := mulberryStep s

/-- range(min, max) = min + random() * (max - min). -/
noncomputable def rngRange (mn mx : ℝ) (s : RngState) : RngState × ℝ :=
  let (s1, u) := rnd s
  (s1, mn + (u : ℝ) * (mx - mn))

/-- pick(arr) = arr[floor(random() * arr.length)]. -/
def rngPick {α : Type} [Inhabited α] (arr : List α) (s : RngState) : RngState × α :=
  let (s1, u) := rnd s
  (s1, arr.getD (⌊u * arr.length⌋).toNat default)

/-- chance(p) = random() < p. -/
def rngChance (p : ℚ) (s : RngState) : RngState × Bool :=
  let (s1, u) := rnd s
  (s1, u < p)

/-- gaussian(): classical Box-Muller, consuming exactly two draws. -/
noncomputable def rngGaussian (s : RngState) : RngState × ℝ :=
  let (s1, u1) := rnd s
  let (s2, u2) := rnd s1
  (s2, Real.sqrt (-2 * Real.log (u1 : ℝ)) * Real.cos (2 * Real.pi * (u2 : ℝ)))

/-! ## Data model (src/lib/types.ts) -/

inductive ShapeType
  | circle
  | rectangle
  | line
  | semicircle
  | triangle
deriving DecidableEq, Repr, Inhabited

inductive PathShapeType
  | circle
  | semicircle
  | triangle
  | rectangle
  | line
deriving DecidableEq, Repr, Inhabited

inductive AnimationMode
  | full
  | stationary
  | drift
  | pulse
deriving DecidableEq, Repr, Inhabited

inductive Role
  | anchor
  | accent
  | texture
deriving DecidableEq, Repr, Inhabited

/-- The JS string value of an animation mode, as stored in the controls. -/
def animationModeString : AnimationMode → String
  | .full => "full"
  | .stationary => "stationary"
  | .drift => "drift"
  | .pulse => "pulse"

/-- A shape record. The source manipulates loosely typed records whose
kind-specific fields exist only on their own kind; those fields are
Option-valued here and the kind tag is the single source of truth. -/
structure Shape where
  type : ShapeType
  x : ℝ
  y : ℝ
  rotation : ℝ
  fill : Option String := none
  stroke : Option String := none
  strokeWidth : Option ℝ := none
  radius : Option ℝ := none
  width : Option ℝ := none
  height : Option ℝ := none
  cornerRadius : Option ℝ := none
  x2 : Option ℝ := none
  y2 : Option ℝ := none
  size : Option ℝ := none

noncomputable instance : Inhabited Shape :=
  ⟨{ type := .circle, x := 0, y := 0, rotation := 0 }⟩

/-- A shape tagged with its layering role. -/
structure RoleShape extends Shape where
  role : Role

noncomputable instance : Inhabited RoleShape := ⟨{ toShape := default, role := .anchor }⟩

/-- The control record: five 0-100 sliders, palette variation, path shape,
animation mode and flow angle. The slider named structure in the source is
called structural here because structure is a Lean keyword. -/
structure Controls where
  structural : ℚ
  density : ℚ
  scale : ℚ
  chaos : ℚ
  motion : ℚ
  paletteVariation : ℚ
  pathShape : PathShapeType
  animationMode : AnimationMode
  flowAngle : ℚ

structure Palette where
  name : String
  background : String
  anchor : List String
  accent : List String
  texture : List String

/-- The five palettes of palettes.ts. -/
def palettes : List Palette :=
  [ { name := "Aurora", background := "#0d1117",
      anchor := ["#58a6ff", "#39d353", "#a371f7"],
      accent := ["#388bfd", "#2ea043", "#8b5cf6"],
      texture := ["#1f6feb33", "#23863533", "#6e40c933"] },
    { name := "Sunset", background := "#1a1a2e",
      anchor := ["#ff6b6b", "#feca57", "#ff9ff3"],
      accent := ["#ee5a5a", "#f8b739", "#f368e0"],
      texture := ["#ff6b6b33", "#feca5733", "#ff9ff333"] },
    { name := "Ocean", background := "#0c1821",
      anchor := ["#00b4d8", "#0077b6", "#90e0ef"],
      accent := ["#0096c7", "#005f73", "#48cae4"],
      texture := ["#00b4d833", "#0077b633", "#90e0ef33"] },
    { name := "Forest", background := "#1b2e1b",
      anchor := ["#95d5b2", "#40916c", "#74c69d"],
      accent := ["#52b788", "#2d6a4f", "#b7e4c7"],
      texture := ["#95d5b233", "#40916c33", "#74c69d33"] },
    { name := "Mono", background := "#111111",
      anchor := ["#ffffff", "#e0e0e0", "#c0c0c0"],
      accent := ["#a0a0a0", "#808080", "#d0d0d0"],
      texture := ["#ffffff22", "#e0e0e022", "#c0c0c022"] } ]

/-! ## Shape factory (src/lib/shapes.ts)

Each factory takes the geometry plus an options record whose set fields
override the defaults (rotation defaults to 0, styling to absent), exactly
like the object spread in the source. -/

structure ShapeOptions where
  rotation : Option ℝ := none
  fill : Option String := none
  stroke : Option String := none
  strokeWidth : Option ℝ := none
  cornerRadius : Option ℝ := none

def createCircle (x y radius : ℝ) (o : ShapeOptions) : Shape :=
  { type := .circle, x := x, y := y, radius := some radius,
    rotation := o.rotation.getD 0, fill := o.fill, stroke := o.stroke,
    strokeWidth := o.strokeWidth }

def createRectangle (x y width height : ℝ) (o : ShapeOptions) : Shape :=
  { type := .rectangle, x := x, y := y, width := some width, height := some height,
    rotation := o.rotation.getD 0, fill := o.fill, stroke := o.stroke,
    strokeWidth := o.strokeWidth, cornerRadius := o.cornerRadius }

def createLine (x y x2 y2 : ℝ) (o : ShapeOptions) : Shape :=
  { type := .line, x := x, y := y, x2 := some x2, y2 := some y2,
    rotation := o.rotation.getD 0, fill := o.fill, stroke := o.stroke,
    strokeWidth := o.strokeWidth }

def createSemicircle (x y radius : ℝ) (o : ShapeOptions) : Shape :=
  { type := .semicircle, x := x, y := y, radius := some radius,
    rotation := o.rotation.getD 0, fill := o.fill, stroke := o.stroke,
    strokeWidth := o.strokeWidth }

def createTriangle (x y size : ℝ) (o : ShapeOptions) : Shape :=
  { type := .triangle, x := x, y := y, size := some size,
    rotation := o.rotation.getD 0, fill := o.fill, stroke := o.stroke,
    strokeWidth := o.strokeWidth }

/-! ## Text path provider (fontPaths.ts runtime half)

The static glyph table is generated offline from a font file and is not
part of the sources; the runtime function is therefore parametrized by the
table, a map from character to normalized point sequence. -/

structure PathPoint where
  x : ℚ
  y : ℚ
deriving DecidableEq, Repr, Inhabited

structure LetterBound where
  x : ℚ
  width : ℚ
deriving DecidableEq, Repr

/-- The sampling loop for (j = 0; j < length; j += sampleRate): keeps the
head and then every rate-th element (rate is at least 1 at every call
site). -/
def sampleStride {α : Type} (rate : Nat) : List α → List α
  | [] => []
  | a :: rest => a :: sampleStride rate (rest.drop (rate - 1))
termination_by l => l.length
decreasing_by simp [List.length_drop, List.length_cons]; omega

/-- getTextPathPoints (fontPaths.ts lines 225-275): upper-cases the text,
computes the per-letter cell layout, and emits canvas-space points for
every stride-th stored point of each letter, together with one horizontal
bound per character. -/
def getTextPathPoints (fontTable : Char → Option (List PathPoint)) (text : String)
    (canvasWidth canvasHeight density : ℚ) : List PathPoint × List LetterBound :=
  let upperText := text.data.map Char.toUpper
  if upperText.length = 0 then ([], [])
  else
    let padding := canvasWidth * 0.08
    let availableWidth := canvasWidth - padding * 2
    let letterWidth := min (availableWidth / (upperText.length : ℚ)) (canvasHeight * 0.6)
    let letterHeight := letterWidth * 1.2
    let letterSpacing := letterWidth * 0.1
    let totalWidth := (upperText.length : ℚ) * letterWidth
      + ((upperText.length : ℚ) - 1) * letterSpacing
    let startX := (canvasWidth - totalWidth) / 2
    let startY := (canvasHeight - letterHeight) / 2
    let sampleRate := (max 1 (⌊(100 - density) / 15⌋ + 1)).toNat
    let perLetter := upperText.enum.map (fun ic =>
      let letterX := startX + (ic.1 : ℚ) * (letterWidth + letterSpacing)
      let pts :=
        match fontTable ic.2 with
        | some letterPath =>
          (sampleStride sampleRate letterPath).map (fun q =>
            { x := letterX + q.x * letterWidth,
              y := startY + q.y * letterHeight : PathPoint })
        | none => []
      (pts, { x := letterX, width := letterWidth : LetterBound }))
    ((perLetter.map Prod.fst).flatten, perLetter.map Prod.snd)

/-! ## Composition generator (src/lib/generator.ts) -/

structure GeneratorConfig where
  width : ℚ
  height : ℚ
  controls : Controls
  palette : Palette
  seed : Int
  text : Option String := none

/-- JS Math.atan2(y, x), the argument of the point (x, y). -/
noncomputable def atan2 (y x : ℝ) : ℝ := Complex.arg ⟨x, y⟩

/-- A generic loop running a state-threading body n times with an
increasing index, collecting one result per iteration. -/
def stateLoop {σ α : Type} (f : Nat → σ → σ × α) : Nat → Nat → σ → σ × List α
  | 0, _, s => (s, [])
  | n + 1, i, s =>
    let r1 := f i s
    let r2 := stateLoop f n (i + 1) r1.1
    (r2.1, r1.2 :: r2.2)

/-- createShapeAtPoint (generator.ts lines 38-94): builds one shape of the
selected path-shape kind. Semicircles and triangles take the flow angle
(in degrees) as their rotation when one is supplied; lines orient toward
the flow angle, else toward the next path point, else by the rotation. -/
noncomputable def createShapeAtPoint (x y : ℝ) (size : ℚ) (shapeType : PathShapeType)
    (color : String) (rotation : ℝ) (nextPoint : Option PathPoint)
    (flowAngle : Option ℚ) : Shape :=
  match shapeType with
  | .circle => createCircle x y (size : ℝ) { fill := some color, rotation := some rotation }
  | .semicircle =>
    let semiRotation : ℝ :=
      match flowAngle with
      | some fa => (fa : ℝ)
      | none => rotation
    createSemicircle x y (size : ℝ) { fill := some color, rotation := some semiRotation }
  | .triangle =>
    let triRotation : ℝ :=
      match flowAngle with
      | some fa => (fa : ℝ)
      | none => rotation
    createTriangle x y ((size : ℝ) * 2) { fill := some color, rotation := some triRotation }
  | .rectangle =>
    createRectangle x y ((size : ℝ) * 1.8) ((size : ℝ) * 1.8)
      { fill := some color, rotation := some rotation }
  | .line =>
    let angle : ℝ :=
      match flowAngle with
      | some fa => (fa : ℝ) * Real.pi / 180
      | none =>
        match nextPoint with
        | some np => atan2 ((np.y : ℝ) - y) ((np.x : ℝ) - x)
        | none => rotation * (Real.pi / 180)
    let length := (size : ℝ) * 2.5
    createLine x y (x + Real.cos angle * length) (y + Real.sin angle * length)
      { stroke := some color, strokeWidth := some (max 2 ((size : ℝ) * 0.3)) }

/-- The body of the text-composition loop (generator.ts lines 123-151),
one shape per path point. -/
noncomputable def textShapeAtIndex (controls : Controls) (palette : Palette) (seed : Int)
    (points : List PathPoint) (size chaosOffset : ℚ) (i : Nat) (s : RngState) :
    RngState × RoleShape :=
  let point := points.getD i default
  let (s, g1) := rngGaussian s
  let offsetX := g1 * (chaosOffset : ℝ)
  let (s, g2) := rngGaussian s
  let offsetY := g2 * (chaosOffset : ℝ)
  let x := (point.x : ℝ) + offsetX
  let y := (point.y : ℝ) + offsetY
  let (s, rot) := rngRange (-30) 30 s
  let rotation := rot * ((controls.chaos : ℝ) / 100)
  let colorIndex := i % palette.anchor.length
  let color := varyColor (palette.anchor.getD colorIndex "") controls.paletteVariation
    (seed + (i : Int))
  let nextPoint := if i < points.length - 1 then some (points.getD (i + 1) default) else none
  let orientFlowAngle :=
    if controls.animationMode = AnimationMode.drift then some controls.flowAngle else none
  let shape := createShapeAtPoint x y size controls.pathShape color rotation nextPoint
    orientFlowAngle
  (s, { toShape := shape, role := .anchor })

/-- generateTextComposition (generator.ts lines 97-154). -/
noncomputable def generateTextComposition (fontTable : Char → Option (List PathPoint))
    (cfg : GeneratorConfig) : List RoleShape :=
  let s0 := initState cfg.seed
  match cfg.text with
  | none => []
  | some text =>
    let points := (getTextPathPoints fontTable text cfg.width cfg.height
      cfg.controls.density).1
    if points.length = 0 then []
    else
      let baseSize : ℚ := min cfg.width cfg.height * 0.025
      let size : ℚ := baseSize * (0.1 + cfg.controls.scale / 100 * 2.0)
      let chaosOffset : ℚ := cfg.controls.chaos / 100 * size * 2
      (stateLoop (textShapeAtIndex cfg.controls cfg.palette cfg.seed points size chaosOffset)
        points.length 0 s0).2

/-- Anchor count (generator.ts line 167): max(1, floor(1 + density/100*3)). -/
def anchorCount (c : Controls) : Nat := (max 1 ⌊1 + c.density / 100 * 3⌋).toNat

/-- Accent count (generator.ts line 248): floor(density/100 * 15). -/
def accentCount (c : Controls) : Nat := (⌊c.density / 100 * 15⌋).toNat

/-- Texture count (generator.ts line 346): floor((density-40)/60 * 50). -/
def textureCount (c : Controls) : Nat := (⌊(c.density - 40) / 60 * 50⌋).toNat

/-- The body of the anchor loop (generator.ts lines 178-231). -/
noncomputable def anchorShapeAtIndex (width height : ℚ) (c : Controls) (p : Palette)
    (seed : Int) (size : ℝ) (gridSize : Nat) (i : Nat) (s : RngState) :
    RngState × RoleShape :=
  let pr :=
    if c.structural > 50 then
      let col := i % gridSize
      let row := i / gridSize
      let cellW : ℝ := (width : ℝ) / (gridSize : ℝ)
      let cellH : ℝ := (height : ℝ) / (gridSize : ℝ)
      let gx : ℝ := cellW * ((col : ℝ) + 0.5)
      let gy : ℝ := cellH * ((row : ℝ) + 0.5)
      let chaosAmount : ℝ := ((c.chaos : ℝ) / 100) * cellW * 0.4
      let (s, g1) := rngGaussian s
      let (s, g2) := rngGaussian s
      (s, gx + g1 * chaosAmount, gy + g2 * chaosAmount)
    else
      let margin := size
      let (s, x) := rngRange margin ((width : ℝ) - margin) s
      let (s, y) := rngRange margin ((height : ℝ) - margin) s
      (s, x, y)
  let s := pr.1
  let x := pr.2.1
  let y := pr.2.2
  let (s, shapeType) := rngPick [ShapeType.circle, ShapeType.rectangle, ShapeType.circle] s
  let (s, baseCol) := rngPick p.anchor s
  let color := varyColor baseCol c.paletteVariation (seed + (i : Int))
  let rr :=
    if c.chaos > 30 then
      let (s, r) := rngRange (-45) 45 s
      (s, r * ((c.chaos : ℝ) / 100))
    else (s, (0 : ℝ))
  let s := rr.1
  let rotation := rr.2
  let sh :=
    if shapeType = ShapeType.circle then
      let (s, m) := rngRange 0.6 1.0 s
      (s, createCircle x y (size * m) { fill := some color, rotation := some rotation })
    else
      let (s, mw) := rngRange 0.8 1.5 s
      let (s, mh) := rngRange 0.8 1.5 s
      let (s, cr) := rngChance 0.6 s
      (s, createRectangle x y (size * mw) (size * mh)
        { fill := some color, rotation := some rotation,
          cornerRadius := some (if cr then size * 0.1 else 0) })
  (sh.1, { toShape := sh.2, role := .anchor })

/-- generateAnchors (generator.ts lines 156-234). -/
noncomputable def generateAnchors (width height : ℚ) (c : Controls) (p : Palette)
    (seed : Int) (s : RngState) : RngState × List RoleShape :=
  let count := anchorCount c
  let baseSize : ℝ := ((min width height : ℚ) : ℝ) * 0.15
  let sizeMultiplier : ℝ := 0.5 + ((c.scale : ℝ) / 100) * 1.5
  let size := baseSize * sizeMultiplier
  let gridSize : Nat := ⌈Real.sqrt ((count : ℝ) + 2)⌉₊
  stateLoop (anchorShapeAtIndex width height c p seed size gridSize) count 0 s

/-- The body of the accent loop (generator.ts lines 255-328). -/
noncomputable def accentShapeAtIndex (width height : ℚ) (c : Controls) (p : Palette)
    (anchors : List RoleShape) (seed : Int) (size : ℝ) (i : Nat) (s : RngState) :
    RngState × RoleShape :=
  let pr :=
    if c.structural > 60 ∧ anchors.length > 0 then
      let (s, anchor) := rngPick anchors s
      let (s, angle) := rngRange 0 (Real.pi * 2) s
      let (s, dm) := rngRange 2 5 s
      let distance := size * dm
      (s, anchor.x + Real.cos angle * distance, anchor.y + Real.sin angle * distance)
    else
      let (s, x) := rngRange size ((width : ℝ) - size) s
      let (s, y) := rngRange size ((height : ℝ) - size) s
      (s, x, y)
  let dr :=
    if c.chaos > 20 then
      let drift := size * ((c.chaos : ℝ) / 100) * 2
      let (s, g1) := rngGaussian pr.1
      let (s, g2) := rngGaussian s
      (s, pr.2.1 + g1 * drift, pr.2.2 + g2 * drift)
    else pr
  let s := dr.1
  let x := dr.2.1
  let y := dr.2.2
  let (s, baseCol) := rngPick p.accent s
  let color := varyColor baseCol c.paletteVariation (seed + (i : Int) + 100)
  let (s, rot) := rngRange (-30) 30 s
  let rotation := rot * ((c.chaos : ℝ) / 100)
  let (s, shapeType) := rngPick [ShapeType.circle, ShapeType.rectangle, ShapeType.line] s
  let sh :=
    if shapeType = ShapeType.circle then
      let (s, m) := rngRange 0.4 0.8 s
      let (s, f) := rngChance 0.7 s
      let (s, st) := rngChance 0.5 s
      (s, createCircle x y (size * m)
        { fill := if f then some color else none,
          stroke := if st then some color else none,
          strokeWidth := some 2, rotation := some rotation })
    else if shapeType = ShapeType.rectangle then
      let (s, mw) := rngRange 0.5 1.5 s
      let (s, mh) := rngRange 0.5 1.5 s
      let (s, f) := rngChance 0.6 s
      let (s, st) := rngChance 0.4 s
      let (s, cr) := rngChance 0.5 s
      (s, createRectangle x y (size * mw) (size * mh)
        { fill := if f then some color else none,
          stroke := if st then some color else none,
          strokeWidth := some 2, rotation := some rotation,
          cornerRadius := some (if cr then size * 0.15 else 0) })
    else
      let (s, lm) := rngRange 1 3 s
      let length := size * lm
      let (s, angle) := rngRange 0 (Real.pi * 2) s
      let (s, sw) := rngRange 1 3 s
      (s, createLine x y (x + Real.cos angle * length) (y + Real.sin angle * length)
        { stroke := some color, strokeWidth := some sw })
  (sh.1, { toShape := sh.2, role := .accent })

/-- generateAccents (generator.ts lines 236-331). -/
noncomputable def generateAccents (width height : ℚ) (c : Controls) (p : Palette)
    (anchors : List RoleShape) (seed : Int) (s : RngState) : RngState × List RoleShape :=
  let count := accentCount c
  let baseSize : ℝ := ((min width height : ℚ) : ℝ) * 0.06
  let sizeMultiplier : ℝ := 0.5 + ((c.scale : ℝ) / 100) * 1.0
  let size := baseSize * sizeMultiplier
  stateLoop (accentShapeAtIndex width height c p anchors seed size) count 0 s

/-- The body of the texture loop (generator.ts lines 351-378). -/
noncomputable def textureShapeAtIndex (width height : ℚ) (c : Controls) (p : Palette)
    (size : ℝ) (_i : Nat) (s : RngState) : RngState × RoleShape :=
  let (s, x) := rngRange 0 (width : ℝ) s
  let (s, y) := rngRange 0 (height : ℝ) s
  let (s, color) := rngPick p.texture s
  let (s, shapeType) := rngPick [ShapeType.circle, ShapeType.line, ShapeType.circle] s
  let sh :=
    if shapeType = ShapeType.circle then
      let (s, m) := rngRange 0.3 1.0 s
      (s, createCircle x y (size * m) { fill := some color })
    else
      let (s, lm) := rngRange 2 6 s
      let length := size * lm
      let ar :=
        if c.structural > 50 then
          rngPick [(0 : ℝ), Real.pi / 2, Real.pi / 4, -(Real.pi / 4)] s
        else rngRange 0 (Real.pi * 2) s
      let s := ar.1
      let angle := ar.2
      (s, createLine x y (x + Real.cos angle * length) (y + Real.sin angle * length)
        { stroke := some color, strokeWidth := some 1 })
  (sh.1, { toShape := sh.2, role := .texture })

/-- generateTexture (generator.ts lines 333-381): skipped below density 40. -/
noncomputable def generateTexture (width height : ℚ) (c : Controls) (p : Palette)
    (s : RngState) : RngState × List RoleShape :=
  if c.density < 40 then (s, [])
  else
    let count := textureCount c
    let baseSize : ℝ := ((min width height : ℚ) : ℝ) * 0.015
    let size := baseSize * (0.5 + ((c.scale : ℝ) / 100) * 0.5)
    stateLoop (textureShapeAtIndex width height c p size) count 0 s

/-- The free-form branch of generateComposition (generator.ts lines 24-34):
three ordered sub-generators sharing one RNG stream, concatenated
anchors-accents-texture. -/
noncomputable def freeFormComposition (cfg : GeneratorConfig) : List RoleShape :=
  let s0 := initState cfg.seed
  let ar := generateAnchors cfg.width cfg.height cfg.controls cfg.palette cfg.seed s0
  let cr := generateAccents cfg.width cfg.height cfg.controls cfg.palette ar.2 cfg.seed ar.1
  let tr := generateTexture cfg.width cfg.height cfg.controls cfg.palette cr.1
  ar.2 ++ cr.2 ++ tr.2

/-- The mode test of generator.ts line 20, text and text.trim().length > 0:
the trimmed string is non-empty exactly when some character is not
whitespace (trimming only removes whitespace from the ends; the source
characters of interest are covered by Char.isWhitespace). -/
def textModeSelected : Option String → Bool
  | none => false
  | some t => t.data.any (fun c => !c.isWhitespace)

/-- generateComposition (generator.ts lines 16-35). -/
noncomputable def generateComposition (fontTable : Char → Option (List PathPoint))
    (cfg : GeneratorConfig) : List RoleShape :=
  if textModeSelected cfg.text then generateTextComposition fontTable cfg
  else freeFormComposition cfg

/-! ## Animation engine (src/lib/animation.ts) -/

/-- A RoleShape decorated with kinematic and oscillation state. The
original size fields snapshot the pulse baseline; the wobble offsets are
written by the update loop for the renderer. -/
structure AnimatedShape extends RoleShape where
  vx : ℝ
  vy : ℝ
  vRotation : ℝ
  pulsePhase : ℝ
  pulseSpeed : ℝ
  originalRadius : Option ℝ := none
  originalWidth : Option ℝ := none
  originalHeight : Option ℝ := none
  originalSize : Option ℝ := none
  wobblePhase : ℝ
  wobbleSpeed : ℝ
  wobbleAmount : ℝ
  wobbleX : Option ℝ := none
  wobbleY : Option ℝ := none

/-- The simple seeded random of addAnimationProperties (animation.ts lines
103-107): s = (s * 9301 + 49297) % 233280, value s / 233280. The JS
remainder keeps the sign of the dividend. -/
def lcgNext (s : Int) : Int × ℚ :=
  let s1 := jsMod (s * 9301 + 49297) 233280
  (s1, (s1 : ℚ) / 233280)

/-- Advance the simple LCG n times, discarding the values (the per-shape
pre-advance loop of animation.ts line 113). -/
def lcgAdvance : Nat → Int → Int
  | 0, s => s
  | n + 1, s => lcgAdvance n (lcgNext s).1

/-- A state-threading map with index over a list. -/
def stateMap {σ α β : Type} (f : Nat → α → σ → σ × β) : Nat → List α → σ → σ × List β
  | _, [], s => (s, [])
  | i, a :: rest, s =>
    let r1 := f i a s
    let r2 := stateMap f (i + 1) rest r1.1
    (r2.1, r1.2 :: r2.2)

/-- The per-shape body of addAnimationProperties (animation.ts lines
111-144). The LCG state is shared across the whole map, each shape first
pre-advancing it i more times. -/
noncomputable def animateShapeAtIndex (chaos motion : ℚ) (stationaryMode : Bool)
    (i : Nat) (shape : RoleShape) (s : Int) : Int × AnimatedShape :=
  let s := lcgAdvance i s
  let chaosMultiplier := chaos / 100
  let motionMultiplier := motion / 100
  let roleMultiplier : ℚ :=
    match shape.role with
    | .anchor => 0.3
    | .accent => 0.7
    | .texture => 1.0
  let velocityScale : ℚ := if stationaryMode then 0 else 1
  let (s, r1) := lcgNext s
  let vx := (r1 - 0.5) * 3 * chaosMultiplier * roleMultiplier * motionMultiplier * velocityScale
  let (s, r2) := lcgNext s
  let vy := (r2 - 0.5) * 3 * chaosMultiplier * roleMultiplier * motionMultiplier * velocityScale
  let (s, r3) := lcgNext s
  let vRotation := (r3 - 0.5) * 3 * chaosMultiplier * roleMultiplier * motionMultiplier *
    (if stationaryMode then 0.3 else 1)
  let (s, r4) := lcgNext s
  let pulsePhase : ℝ := (r4 : ℝ) * Real.pi * 2
  let (s, r5) := lcgNext s
  let pulseSpeed := (0.02 + r5 * 0.04) * motionMultiplier
  let (s, r6) := lcgNext s
  let wobblePhase : ℝ := (r6 : ℝ) * Real.pi * 2
  let (s, r7) := lcgNext s
  let wobbleSpeed := (0.015 + r7 * 0.03) * motionMultiplier
  let (s, r8) := lcgNext s
  let wobbleAmount := (if stationaryMode then (4 : ℚ) else 8) +
    r8 * (if stationaryMode then (8 : ℚ) else 15) * chaosMultiplier * motionMultiplier
  (s, { toRoleShape := shape,
        vx := (vx : ℝ), vy := (vy : ℝ), vRotation := (vRotation : ℝ),
        pulsePhase := pulsePhase, pulseSpeed := ((pulseSpeed : ℚ) : ℝ),
        originalRadius :=
          if shape.type = ShapeType.circle ∨ shape.type = ShapeType.semicircle then
            shape.radius
          else none,
        originalWidth := if shape.type = ShapeType.rectangle then shape.width else none,
        originalHeight := if shape.type = ShapeType.rectangle then shape.height else none,
        originalSize := if shape.type = ShapeType.triangle then shape.size else none,
        wobblePhase := wobblePhase, wobbleSpeed := ((wobbleSpeed : ℚ) : ℝ),
        wobbleAmount := ((wobbleAmount : ℚ) : ℝ) })

/-- addAnimationProperties (animation.ts lines 95-146). In the source the
fifth parameter is declared as a boolean stationaryMode defaulting to
false. -/
noncomputable def addAnimationProperties (shapes : List RoleShape) (chaos motion : ℚ)
    (seed : Int) (stationaryMode : Bool) : List AnimatedShape :=
  (stateMap (animateShapeAtIndex chaos motion stationaryMode) 0 shapes seed).2

/-- The invocation in Canvas.tsx lines 48-55: the caller passes
controls.animationMode, a string, into the boolean stationaryMode
parameter (and controls.flowAngle as an excess sixth argument). At
runtime the mode string is coerced by JS truthiness. -/
noncomputable def canvasAddAnimationProperties (shapes : List RoleShape) (controls : Controls)
    (seed : Int) : List AnimatedShape :=
  addAnimationProperties shapes controls.chaos controls.motion seed
    (jsTruthyString (animationModeString controls.animationMode))

/-- JS truthiness of a possibly-absent number field: present and nonzero. -/
noncomputable def optTruthy (o : Option ℝ) : Bool :=
  match o with
  | none => false
  | some r => decide (r ≠ 0)

/-- The per-shape body of updateAnimatedShapes (animation.ts lines
156-206): integrate position, advance wobble, reflect off the 50-unit
inset box, integrate rotation, advance pulse and recompute the size
fields from the snapshotted baselines. -/
noncomputable def updateShape (width height : ℚ) (dt : ℝ) (a : AnimatedShape) :
    AnimatedShape :=
  let x1 := a.x + a.vx * dt
  let y1 := a.y + a.vy * dt
  let wobblePhase1 := a.wobblePhase + a.wobbleSpeed * dt
  let wobbleX := Real.sin wobblePhase1 * a.wobbleAmount
  let wobbleY := Real.cos (wobblePhase1 * 1.3) * a.wobbleAmount
  let bounceX := x1 < 50 ∨ x1 > (width : ℝ) - 50
  let vx1 := if bounceX then -a.vx else a.vx
  let x2 := if bounceX then max 50 (min ((width : ℝ) - 50) x1) else x1
  let bounceY := y1 < 50 ∨ y1 > (height : ℝ) - 50
  let vy1 := if bounceY then -a.vy else a.vy
  let y2 := if bounceY then max 50 (min ((height : ℝ) - 50) y1) else y1
  let rotation1 := a.rotation + a.vRotation * dt
  let pulsePhase1 := a.pulsePhase + a.pulseSpeed * dt
  let pulseFactor := 1 + Real.sin pulsePhase1 * 0.15
  let a1 := { a with
    x := x2
    y := y2
    vx := vx1
    vy := vy1
    wobblePhase := wobblePhase1
    rotation := rotation1
    pulsePhase := pulsePhase1
    wobbleX := some wobbleX
    wobbleY := some wobbleY }
  if (a.type = ShapeType.circle ∨ a.type = ShapeType.semicircle) ∧
      optTruthy a.originalRadius then
    { a1 with radius := a.originalRadius.map (fun r => r * pulseFactor) }
  else if a.type = ShapeType.rectangle ∧ optTruthy a.originalWidth ∧
      optTruthy a.originalHeight then
    { a1 with width := a.originalWidth.map (fun r => r * pulseFactor),
              height := a.originalHeight.map (fun r => r * pulseFactor) }
  else if a.type = ShapeType.triangle then
    if optTruthy a.originalSize then
      { a1 with size := a.originalSize.map (fun r => r * pulseFactor) }
    else a1
  else a1

/-- updateAnimatedShapes (animation.ts lines 148-207): dt is the elapsed
milliseconds normalized by 0.06; every shape is updated. The in-place
mutation of the source becomes a returned list. -/
noncomputable def updateAnimatedShapes (shapes : List AnimatedShape) (width height : ℚ)
    (deltaTime : ℝ) : List AnimatedShape :=
  let dt := deltaTime * 0.06
  shapes.map (updateShape width height dt)

/-- The effect on one shape of a sequence of updateAnimatedShapes calls,
each with its own canvas size and elapsed time. -/
noncomputable def runUpdates (params : List (ℚ × ℚ × ℝ)) (a : AnimatedShape) :
    AnimatedShape :=
  params.foldl (fun b pr => updateShape pr.1 pr.2.1 (pr.2.2 * 0.06) b) a

/-! ## Concrete sample data used by witnesses and counterexamples -/

/-- A small stand-in glyph table with the space entry the extraction
script always emits and two sample letters. -/
def sampleFont : Char → Option (List PathPoint) := fun c =>
  if c = ' ' then some []
  else if c = 'H' then
    some [⟨0, 0⟩, ⟨0, 1/2⟩, ⟨0, 1⟩, ⟨1/2, 1/2⟩, ⟨1, 0⟩, ⟨1, 1/2⟩, ⟨1, 1⟩]
  else if c = 'I' then some [⟨0, 0⟩, ⟨0, 1/2⟩, ⟨0, 1⟩]
  else none

def samplePalette : Palette :=
  palettes.getD 0 { name := "", background := "", anchor := [], accent := [], texture := [] }

def sampleControls : Controls :=
  { structural := 50, density := 50, scale := 50, chaos := 50, motion := 50,
    paletteVariation := 0, pathShape := .circle, animationMode := .full, flowAngle := 0 }

def sampleConfig (density : ℚ) (text : Option String) : GeneratorConfig :=
  { width := 800, height := 800, controls := { sampleControls with density := density },
    palette := samplePalette, seed := 1, text := text }

def driftControls : Controls :=
  { sampleControls with pathShape := .semicircle, animationMode := .drift, flowAngle := 45 }

def driftConfig : GeneratorConfig :=
  { width := 800, height := 800, controls := driftControls,
    palette := samplePalette, seed := 1, text := some "HI" }

noncomputable def sampleCircleAnim : AnimatedShape :=
  { type := ShapeType.circle, x := 100, y := 100, rotation := 0, radius := some 10,
    role := Role.anchor, vx := 1, vy := 1, vRotation := 0, pulsePhase := 0, pulseSpeed := 1,
    originalRadius := some 10, wobblePhase := 0, wobbleSpeed := 0, wobbleAmount := 0 }

noncomputable def sampleRectAnim : AnimatedShape :=
  { type := ShapeType.rectangle, x := 100, y := 100, rotation := 0,
    width := some 20, height := some 12, role := Role.accent, vx := 1, vy := 1,
    vRotation := 0, pulsePhase := 0, pulseSpeed := 1, originalWidth := some 20,
    originalHeight := some 12, wobblePhase := 0, wobbleSpeed := 0, wobbleAmount := 0 }

noncomputable def sampleTriAnim : AnimatedShape :=
  { type := ShapeType.triangle, x := 100, y := 100, rotation := 0, size := some 8,
    role := Role.texture, vx := 1, vy := 1, vRotation := 0, pulsePhase := 0, pulseSpeed := 1,
    originalSize := some 8, wobblePhase := 0, wobbleSpeed := 0, wobbleAmount := 0 }

noncomputable def sampleLineAnim : AnimatedShape :=
  { type := ShapeType.line, x := 100, y := 100, rotation := 0, x2 := some 120, y2 := some 130,
    role := Role.texture, vx := 1, vy := 1, vRotation := 0, pulsePhase := 0, pulseSpeed := 1,
    wobblePhase := 0, wobbleSpeed := 0, wobbleAmount := 0 }

/-! ## General lemmas about the loop combinators -/

theorem stateLoop_length {σ α : Type} (f : Nat → σ → σ × α) :
    ∀ (n i : Nat) (s : σ), ((stateLoop f n i s).2).length = n := by
  intro n
  induction n with
  | zero => intro i s; rfl
  | succ k ih => intro i s; simpa [stateLoop] using ih (i + 1) (f i s).1

theorem stateLoop_mem {σ α : Type} (f : Nat → σ → σ × α) (P : α → Prop)
    (hf : ∀ j t, P (f j t).2) :
    ∀ (n i : Nat) (s : σ), ∀ e ∈ (stateLoop f n i s).2, P e := by
  intro n
  induction n with
  | zero => intro i s e he; simp [stateLoop] at he
  | succ k ih =>
    intro i s e he
    simp only [stateLoop, List.mem_cons] at he
    rcases he with h | h
    · rw [h]; exact hf i s
    · exact ih (i + 1) (f i s).1 e h

theorem stateMap_length {σ α β : Type} (f : Nat → α → σ → σ × β) :
    ∀ (l : List α) (i : Nat) (s : σ), ((stateMap f i l s).2).length = l.length := by
  intro l
  induction l with
  | nil => intro i s; rfl
  | cons a rest ih => intro i s; simpa [stateMap] using ih (i + 1) (f i a s).1

/-! ## Role and count lemmas for the generator -/

/-- The number of shapes of a role in a composition. -/
def countRole (r : Role) (l : List RoleShape) : Nat :=
  (l.filter (fun e => decide (e.role = r))).length

theorem countRole_append (r : Role) (l1 l2 : List RoleShape) :
    countRole r (l1 ++ l2) = countRole r l1 + countRole r l2 := by
  simp [countRole, List.filter_append]

theorem countRole_eq_length (r : Role) (l : List RoleShape) (h : ∀ e ∈ l, e.role = r) :
    countRole r l = l.length := by
  induction l with
  | nil => rfl
  | cons a rest ih =>
    have ha : a.role = r := h a (by simp)
    have hrest : countRole r rest = rest.length := ih fun e he => h e (by simp [he])
    simp only [countRole, List.filter_cons, ha] at *
    simp [hrest]

theorem countRole_eq_zero (r ρ : Role) (l : List RoleShape) (hne : r ≠ ρ)
    (h : ∀ e ∈ l, e.role = ρ) : countRole r l = 0 := by
  induction l with
  | nil => rfl
  | cons a rest ih =>
    have ha : a.role = ρ := h a (by simp)
    have hrest : countRole r rest = 0 := ih fun e he => h e (by simp [he])
    have hfa : (decide (a.role = r)) = false := by
      simp [ha]
      exact fun hc => hne hc.symm
    simp only [countRole, List.filter_cons, hfa] at *
    simp [hrest]

theorem anchorShapeAtIndex_role (width height : ℚ) (c : Controls) (p : Palette)
    (seed : Int) (size : ℝ) (gridSize : Nat) (i : Nat) (s : RngState) :
    (anchorShapeAtIndex width height c p seed size gridSize i s).2.role = Role.anchor := rfl

theorem accentShapeAtIndex_role (width height : ℚ) (c : Controls) (p : Palette)
    (anchors : List RoleShape) (seed : Int) (size : ℝ) (i : Nat) (s : RngState) :
    (accentShapeAtIndex width height c p anchors seed size i s).2.role = Role.accent := rfl

theorem textureShapeAtIndex_role (width height : ℚ) (c : Controls) (p : Palette)
    (size : ℝ) (i : Nat) (s : RngState) :
    (textureShapeAtIndex width height c p size i s).2.role = Role.texture := rfl

theorem textShapeAtIndex_role (c : Controls) (p : Palette) (seed : Int)
    (points : List PathPoint) (size chaosOffset : ℚ) (i : Nat) (s : RngState) :
    (textShapeAtIndex c p seed points size chaosOffset i s).2.role = Role.anchor := rfl

theorem generateAnchors_length (width height : ℚ) (c : Controls) (p : Palette)
    (seed : Int) (s : RngState) :
    ((generateAnchors width height c p seed s).2).length = anchorCount c := by
  simp [generateAnchors, stateLoop_length]

theorem generateAnchors_roles (width height : ℚ) (c : Controls) (p : Palette)
    (seed : Int) (s : RngState) :
    ∀ e ∈ (generateAnchors width height c p seed s).2, e.role = Role.anchor := by
  intro e he
  exact stateLoop_mem _ (fun e => e.role = Role.anchor)
    (fun j t => anchorShapeAtIndex_role _ _ _ _ _ _ _ j t) _ _ _ e he

theorem generateAccents_length (width height : ℚ) (c : Controls) (p : Palette)
    (anchors : List RoleShape) (seed : Int) (s : RngState) :
    ((generateAccents width height c p anchors seed s).2).length = accentCount c := by
  simp [generateAccents, stateLoop_length]

theorem generateAccents_roles (width height : ℚ) (c : Controls) (p : Palette)
    (anchors : List RoleShape) (seed : Int) (s : RngState) :
    ∀ e ∈ (generateAccents width height c p anchors seed s).2, e.role = Role.accent := by
  intro e he
  exact stateLoop_mem _ (fun e => e.role = Role.accent)
    (fun j t => accentShapeAtIndex_role _ _ _ _ _ _ _ j t) _ _ _ e he

theorem generateTexture_length (width height : ℚ) (c : Controls) (p : Palette)
    (s : RngState) :
    ((generateTexture width height c p s).2).length =
      if c.density < 40 then 0 else textureCount c := by
  rw [generateTexture]
  split_ifs with h
  · rfl
  · simp [stateLoop_length]

theorem generateTexture_roles (width height : ℚ) (c : Controls) (p : Palette)
    (s : RngState) :
    ∀ e ∈ (generateTexture width height c p s).2, e.role = Role.texture := by
  intro e he
  rw [generateTexture] at he
  split_ifs at he with h
  · simp at he
  · exact stateLoop_mem _ (fun e => e.role = Role.texture)
      (fun j t => textureShapeAtIndex_role _ _ _ _ _ j t) _ _ _ e he

theorem freeForm_counts (cfg : GeneratorConfig) :
    countRole Role.anchor (freeFormComposition cfg) = anchorCount cfg.controls ∧
    countRole Role.accent (freeFormComposition cfg) = accentCount cfg.controls ∧
    countRole Role.texture (freeFormComposition cfg) =
      (if cfg.controls.density < 40 then 0 else textureCount cfg.controls) := by
  rw [freeFormComposition]
  refine ⟨?_, ?_, ?_⟩ <;>
    rw [countRole_append, countRole_append]
  · rw [countRole_eq_length _ _ (generateAnchors_roles _ _ _ _ _ _),
      countRole_eq_zero _ _ _ (by decide) (generateAccents_roles _ _ _ _ _ _ _),
      countRole_eq_zero _ _ _ (by decide) (generateTexture_roles _ _ _ _ _),
      generateAnchors_length]
    omega
  · rw [countRole_eq_zero _ _ _ (by decide) (generateAnchors_roles _ _ _ _ _ _),
      countRole_eq_length _ _ (generateAccents_roles _ _ _ _ _ _ _),
      countRole_eq_zero _ _ _ (by decide) (generateTexture_roles _ _ _ _ _),
      generateAccents_length]
    omega
  · rw [countRole_eq_zero _ _ _ (by decide) (generateAnchors_roles _ _ _ _ _ _),
      countRole_eq_zero _ _ _ (by decide) (generateAccents_roles _ _ _ _ _ _ _),
      countRole_eq_length _ _ (generateTexture_roles _ _ _ _ _),
      generateTexture_length]
    omega

/-! ## Field lemmas for the animation update step -/

theorem updateShape_preserved (w h : ℚ) (dt : ℝ) (a : AnimatedShape) :
    (updateShape w h dt a).type = a.type ∧
    (updateShape w h dt a).originalRadius = a.originalRadius ∧
    (updateShape w h dt a).originalWidth = a.originalWidth ∧
    (updateShape w h dt a).originalHeight = a.originalHeight ∧
    (updateShape w h dt a).originalSize = a.originalSize ∧
    (updateShape w h dt a).x2 = a.x2 ∧
    (updateShape w h dt a).y2 = a.y2 := by
  rw [updateShape]
  split_ifs <;> exact ⟨rfl, rfl, rfl, rfl, rfl, rfl, rfl⟩

theorem updateShape_x (w h : ℚ) (dt : ℝ) (a : AnimatedShape) :
    (updateShape w h dt a).x =
      if a.x + a.vx * dt < 50 ∨ a.x + a.vx * dt > (w : ℝ) - 50 then
        max 50 (min ((w : ℝ) - 50) (a.x + a.vx * dt))
      else a.x + a.vx * dt := by
  rw [updateShape]
  split_ifs <;> rfl

theorem updateShape_y (w h : ℚ) (dt : ℝ) (a : AnimatedShape) :
    (updateShape w h dt a).y =
      if a.y + a.vy * dt < 50 ∨ a.y + a.vy * dt > (h : ℝ) - 50 then
        max 50 (min ((h : ℝ) - 50) (a.y + a.vy * dt))
      else a.y + a.vy * dt := by
  rw [updateShape]
  split_ifs <;> rfl

theorem updateShape_vx (w h : ℚ) (dt : ℝ) (a : AnimatedShape) :
    (updateShape w h dt a).vx =
      if a.x + a.vx * dt < 50 ∨ a.x + a.vx * dt > (w : ℝ) - 50 then -a.vx else a.vx := by
  rw [updateShape]
  split_ifs <;> rfl

theorem updateShape_vy (w h : ℚ) (dt : ℝ) (a : AnimatedShape) :
    (updateShape w h dt a).vy =
      if a.y + a.vy * dt < 50 ∨ a.y + a.vy * dt > (h : ℝ) - 50 then -a.vy else a.vy := by
  rw [updateShape]
  split_ifs <;> rfl

theorem updateShape_radius_pulse (w h : ℚ) (dt : ℝ) (a : AnimatedShape) (b : ℝ)
    (hty : a.type = ShapeType.circle ∨ a.type = ShapeType.semicircle)
    (ho : a.originalRadius = some b) (hb : b ≠ 0) :
    (updateShape w h dt a).radius =
      some (b * (1 + Real.sin (a.pulsePhase + a.pulseSpeed * dt) * 0.15)) := by
  rcases hty with hty | hty <;> simp [updateShape, hty, ho, optTruthy, hb]

theorem updateShape_rect_pulse (w h : ℚ) (dt : ℝ) (a : AnimatedShape) (bw bh : ℝ)
    (hty : a.type = ShapeType.rectangle)
    (how : a.originalWidth = some bw) (hoh : a.originalHeight = some bh)
    (hbw : bw ≠ 0) (hbh : bh ≠ 0) :
    (updateShape w h dt a).width =
      some (bw * (1 + Real.sin (a.pulsePhase + a.pulseSpeed * dt) * 0.15)) ∧
    (updateShape w h dt a).height =
      some (bh * (1 + Real.sin (a.pulsePhase + a.pulseSpeed * dt) * 0.15)) := by
  constructor <;> simp [updateShape, hty, how, hoh, optTruthy, hbw, hbh]

theorem updateShape_triangle_pulse (w h : ℚ) (dt : ℝ) (a : AnimatedShape) (bs : ℝ)
    (hty : a.type = ShapeType.triangle) (hos : a.originalSize = some bs) (hbs : bs ≠ 0) :
    (updateShape w h dt a).size =
      some (bs * (1 + Real.sin (a.pulsePhase + a.pulseSpeed * dt) * 0.15)) := by
  simp [updateShape, hty, hos, optTruthy, hbs]

theorem updateShape_line_geom (w h : ℚ) (dt : ℝ) (a : AnimatedShape)
    (hty : a.type = ShapeType.line) :
    (updateShape w h dt a).radius = a.radius ∧
    (updateShape w h dt a).width = a.width ∧
    (updateShape w h dt a).height = a.height ∧
    (updateShape w h dt a).size = a.size := by
  simp [updateShape, hty]

/-! ## Claim C6 -/

/-- C6: for canvases at least 100 units wide and tall, every call to the
update step leaves the stored position inside the box inset 50 units from
each edge, and a velocity component is negated exactly when the
velocity-integrated position leaves that box (one sign flip per boundary
contact). -/
theorem C6_boundary_reflection (w h : ℚ) (dt : ℝ) (a : AnimatedShape)
    (hw : 100 ≤ w) (hh : 100 ≤ h) :
    (50 ≤ (updateShape w h dt a).x ∧ (updateShape w h dt a).x ≤ (w : ℝ) - 50) ∧
    (50 ≤ (updateShape w h dt a).y ∧ (updateShape w h dt a).y ≤ (h : ℝ) - 50) ∧
    ((updateShape w h dt a).vx =
      if a.x + a.vx * dt < 50 ∨ a.x + a.vx * dt > (w : ℝ) - 50 then -a.vx else a.vx) ∧
    ((updateShape w h dt a).vy =
      if a.y + a.vy * dt < 50 ∨ a.y + a.vy * dt > (h : ℝ) - 50 then -a.vy else a.vy) := by
  have hwr : (100 : ℝ) ≤ (w : ℝ) := by exact_mod_cast hw
  have hhr : (100 : ℝ) ≤ (h : ℝ) := by exact_mod_cast hh
  refine ⟨?_, ?_, updateShape_vx w h dt a, updateShape_vy w h dt a⟩
  · rw [updateShape_x]
    split_ifs with hc
    · refine ⟨le_max_left _ _, max_le (by linarith) (min_le_left _ _)⟩
    · push_neg at hc
      exact ⟨hc.1, hc.2⟩
  · rw [updateShape_y]
    split_ifs with hc
    · refine ⟨le_max_left _ _, max_le (by linarith) (min_le_left _ _)⟩
    · push_neg at hc
      exact ⟨hc.1, hc.2⟩

/-- Witness for C6: the clamped position bound at a concrete shape. -/
theorem C6_boundary_reflection_witness :
    50 ≤ (updateShape 200 200 1 sampleCircleAnim).x ∧
    (updateShape 200 200 1 sampleCircleAnim).x ≤ ((200 : ℚ) : ℝ) - 50 :=
  (C6_boundary_reflection 200 200 1 sampleCircleAnim (by norm_num) (by norm_num)).1

/-! ## Claim C7 -/

theorem runUpdates_radius_bounds (b : ℝ) (hb : 0 < b) :
    ∀ (params : List (ℚ × ℚ × ℝ)) (a : AnimatedShape),
      (a.type = ShapeType.circle ∨ a.type = ShapeType.semicircle) →
      a.originalRadius = some b →
      (∃ r, a.radius = some r ∧ 0.85 * b ≤ r ∧ r ≤ 1.15 * b) →
      ∃ r, (runUpdates params a).radius = some r ∧ 0.85 * b ≤ r ∧ r ≤ 1.15 * b := by
  intro params
  induction params with
  | nil => intro a _ _ hr; exact hr
  | cons p rest ih =>
    intro a hty ho _
    have hstep : runUpdates (p :: rest) a
        = runUpdates rest (updateShape p.1 p.2.1 (p.2.2 * 0.06) a) := rfl
    rw [hstep]
    have hpre := updateShape_preserved p.1 p.2.1 (p.2.2 * 0.06) a
    apply ih
    · rw [hpre.1]; exact hty
    · rw [hpre.2.1]; exact ho
    · refine ⟨b * (1 + Real.sin (a.pulsePhase + a.pulseSpeed * (p.2.2 * 0.06)) * 0.15),
        updateShape_radius_pulse _ _ _ _ _ hty ho (ne_of_gt hb), ?_, ?_⟩
      · nlinarith [Real.neg_one_le_sin (a.pulsePhase + a.pulseSpeed * (p.2.2 * 0.06))]
      · nlinarith [Real.sin_le_one (a.pulsePhase + a.pulseSpeed * (p.2.2 * 0.06))]

theorem runUpdates_rect_bounds (bw bh : ℝ) (hbw : 0 < bw) (hbh : 0 < bh) :
    ∀ (params : List (ℚ × ℚ × ℝ)) (a : AnimatedShape),
      a.type = ShapeType.rectangle →
      a.originalWidth = some bw → a.originalHeight = some bh →
      (∃ rw rh, a.width = some rw ∧ a.height = some rh ∧
        0.85 * bw ≤ rw ∧ rw ≤ 1.15 * bw ∧ 0.85 * bh ≤ rh ∧ rh ≤ 1.15 * bh) →
      ∃ rw rh, (runUpdates params a).width = some rw ∧
        (runUpdates params a).height = some rh ∧
        0.85 * bw ≤ rw ∧ rw ≤ 1.15 * bw ∧ 0.85 * bh ≤ rh ∧ rh ≤ 1.15 * bh := by
  intro params
  induction params with
  | nil => intro a _ _ _ hr; exact hr
  | cons p rest ih =>
    intro a hty how hoh _
    have hstep : runUpdates (p :: rest) a
        = runUpdates rest (updateShape p.1 p.2.1 (p.2.2 * 0.06) a) := rfl
    rw [hstep]
    have hpre := updateShape_preserved p.1 p.2.1 (p.2.2 * 0.06) a
    have hwh := updateShape_rect_pulse p.1 p.2.1 (p.2.2 * 0.06) a bw bh hty how hoh
      (ne_of_gt hbw) (ne_of_gt hbh)
    apply ih
    · rw [hpre.1]; exact hty
    · rw [hpre.2.2.1]; exact how
    · rw [hpre.2.2.2.1]; exact hoh
    · refine ⟨bw * (1 + Real.sin (a.pulsePhase + a.pulseSpeed * (p.2.2 * 0.06)) * 0.15),
        bh * (1 + Real.sin (a.pulsePhase + a.pulseSpeed * (p.2.2 * 0.06)) * 0.15),
        hwh.1, hwh.2, ?_, ?_, ?_, ?_⟩
      · nlinarith [Real.neg_one_le_sin (a.pulsePhase + a.pulseSpeed * (p.2.2 * 0.06))]
      · nlinarith [Real.sin_le_one (a.pulsePhase + a.pulseSpeed * (p.2.2 * 0.06))]
      · nlinarith [Real.neg_one_le_sin (a.pulsePhase + a.pulseSpeed * (p.2.2 * 0.06))]
      · nlinarith [Real.sin_le_one (a.pulsePhase + a.pulseSpeed * (p.2.2 * 0.06))]

theorem runUpdates_triangle_bounds (bs : ℝ) (hbs : 0 < bs) :
    ∀ (params : List (ℚ × ℚ × ℝ)) (a : AnimatedShape),
      a.type = ShapeType.triangle → a.originalSize = some bs →
      (∃ r, a.size = some r ∧ 0.85 * bs ≤ r ∧ r ≤ 1.15 * bs) →
      ∃ r, (runUpdates params a).size = some r ∧ 0.85 * bs ≤ r ∧ r ≤ 1.15 * bs := by
  intro params
  induction params with
  | nil => intro a _ _ hr; exact hr
  | cons p rest ih =>
    intro a hty hos _
    have hstep : runUpdates (p :: rest) a
        = runUpdates rest (updateShape p.1 p.2.1 (p.2.2 * 0.06) a) := rfl
    rw [hstep]
    have hpre := updateShape_preserved p.1 p.2.1 (p.2.2 * 0.06) a
    apply ih
    · rw [hpre.1]; exact hty
    · rw [hpre.2.2.2.2.1]; exact hos
    · refine ⟨bs * (1 + Real.sin (a.pulsePhase + a.pulseSpeed * (p.2.2 * 0.06)) * 0.15),
        updateShape_triangle_pulse _ _ _ _ _ hty hos (ne_of_gt hbs), ?_, ?_⟩
      · nlinarith [Real.neg_one_le_sin (a.pulsePhase + a.pulseSpeed * (p.2.2 * 0.06))]
      · nlinarith [Real.sin_le_one (a.pulsePhase + a.pulseSpeed * (p.2.2 * 0.06))]

theorem runUpdates_line_geom :
    ∀ (params : List (ℚ × ℚ × ℝ)) (a : AnimatedShape), a.type = ShapeType.line →
      (runUpdates params a).x2 = a.x2 ∧ (runUpdates params a).y2 = a.y2 ∧
      (runUpdates params a).radius = a.radius ∧ (runUpdates params a).width = a.width ∧
      (runUpdates params a).height = a.height ∧ (runUpdates params a).size = a.size := by
  intro params
  induction params with
  | nil => intro a _; exact ⟨rfl, rfl, rfl, rfl, rfl, rfl⟩
  | cons p rest ih =>
    intro a hty
    have hstep : runUpdates (p :: rest) a
        = runUpdates rest (updateShape p.1 p.2.1 (p.2.2 * 0.06) a) := rfl
    rw [hstep]
    have hpre := updateShape_preserved p.1 p.2.1 (p.2.2 * 0.06) a
    have hgeo := updateShape_line_geom p.1 p.2.1 (p.2.2 * 0.06) a hty
    have hrec := ih (updateShape p.1 p.2.1 (p.2.2 * 0.06) a) (by rw [hpre.1]; exact hty)
    refine ⟨?_, ?_, ?_, ?_, ?_, ?_⟩
    · rw [hrec.1, hpre.2.2.2.2.2.1]
    · rw [hrec.2.1, hpre.2.2.2.2.2.2]
    · rw [hrec.2.2.1, hgeo.1]
    · rw [hrec.2.2.2.1, hgeo.2.1]
    · rw [hrec.2.2.2.2.1, hgeo.2.2.1]
    · rw [hrec.2.2.2.2.2, hgeo.2.2.2]

/-- C7: a shape carrying a positive pulse baseline keeps its current size
fields within [0.85, 1.15] of the baseline after any sequence of update
calls (its size starting at the snapshot), and line shapes have no size
fields to pulse: their geometry fields are unchanged by any sequence of
updates. -/
theorem C7_pulse_bounded (params : List (ℚ × ℚ × ℝ)) (a : AnimatedShape) :
    (∀ b : ℝ, (a.type = ShapeType.circle ∨ a.type = ShapeType.semicircle) →
      a.originalRadius = some b → 0 < b → a.radius = some b →
      ((runUpdates params a).radius).isSome = true ∧
      0.85 * b ≤ ((runUpdates params a).radius).getD 0 ∧
      ((runUpdates params a).radius).getD 0 ≤ 1.15 * b) ∧
    (∀ bw bh : ℝ, a.type = ShapeType.rectangle →
      a.originalWidth = some bw → a.originalHeight = some bh → 0 < bw → 0 < bh →
      a.width = some bw → a.height = some bh →
      ((runUpdates params a).width).isSome = true ∧
      ((runUpdates params a).height).isSome = true ∧
      0.85 * bw ≤ ((runUpdates params a).width).getD 0 ∧
      ((runUpdates params a).width).getD 0 ≤ 1.15 * bw ∧
      0.85 * bh ≤ ((runUpdates params a).height).getD 0 ∧
      ((runUpdates params a).height).getD 0 ≤ 1.15 * bh) ∧
    (∀ bs : ℝ, a.type = ShapeType.triangle → a.originalSize = some bs → 0 < bs →
      a.size = some bs →
      ((runUpdates params a).size).isSome = true ∧
      0.85 * bs ≤ ((runUpdates params a).size).getD 0 ∧
      ((runUpdates params a).size).getD 0 ≤ 1.15 * bs) ∧
    (a.type = ShapeType.line →
      (runUpdates params a).x2 = a.x2 ∧ (runUpdates params a).y2 = a.y2 ∧
      (runUpdates params a).radius = a.radius ∧ (runUpdates params a).width = a.width ∧
      (runUpdates params a).height = a.height ∧ (runUpdates params a).size = a.size) := by
  refine ⟨?_, ?_, ?_, fun hty => runUpdates_line_geom params a hty⟩
  · intro b hty ho hb hr
    obtain ⟨r, hra, h1, h2⟩ := runUpdates_radius_bounds b hb params a hty ho
      ⟨b, hr, by nlinarith, by nlinarith⟩
    rw [hra]
    exact ⟨rfl, by simpa using h1, by simpa using h2⟩
  · intro bw bh hty how hoh hbw hbh hw hh
    obtain ⟨rw1, rh1, hwa, hha, h1, h2, h3, h4⟩ := runUpdates_rect_bounds bw bh hbw hbh
      params a hty how hoh
      ⟨bw, bh, hw, hh, by nlinarith, by nlinarith, by nlinarith, by nlinarith⟩
    rw [hwa, hha]
    exact ⟨rfl, rfl, by simpa using h1, by simpa using h2, by simpa using h3,
      by simpa using h4⟩
  · intro bs hty hos hbs hs
    obtain ⟨r, hra, h1, h2⟩ := runUpdates_triangle_bounds bs hbs params a hty hos
      ⟨bs, hs, by nlinarith, by nlinarith⟩
    rw [hra]
    exact ⟨rfl, by simpa using h1, by simpa using h2⟩

/-- Witness for C7: the radius bound for a concrete circle after one
update. -/
theorem C7_pulse_bounded_witness :
    ((runUpdates [(200, 200, 16)] sampleCircleAnim).radius).isSome = true ∧
    0.85 * 10 ≤ ((runUpdates [(200, 200, 16)] sampleCircleAnim).radius).getD 0 ∧
    ((runUpdates [(200, 200, 16)] sampleCircleAnim).radius).getD 0 ≤ 1.15 * 10 :=
  (C7_pulse_bounded [(200, 200, 16)] sampleCircleAnim).1 10 (Or.inl rfl) rfl
    (by norm_num) rfl

/-! ## Claim C1 -/

theorem animateShapeAtIndex_stationary_vx (chaos motion : ℚ) (i : Nat) (sh : RoleShape)
    (s : Int) : (animateShapeAtIndex chaos motion true i sh s).2.vx = 0 := by
  simp [animateShapeAtIndex]

theorem animateShapeAtIndex_stationary_vy (chaos motion : ℚ) (i : Nat) (sh : RoleShape)
    (s : Int) : (animateShapeAtIndex chaos motion true i sh s).2.vy = 0 := by
  simp [animateShapeAtIndex]

theorem stateMap_anim_velocities_zero (chaos motion : ℚ) :
    ∀ (shapes : List RoleShape) (i : Nat) (s : Int),
      ((stateMap (animateShapeAtIndex chaos motion true) i shapes s).2).map
          (fun a => (a.vx, a.vy))
        = shapes.map (fun _ => ((0 : ℝ), 0)) := by
  intro shapes
  induction shapes with
  | nil => intro i s; rfl
  | cons a rest ih =>
    intro i s
    simp [stateMap, animateShapeAtIndex_stationary_vx, animateShapeAtIndex_stationary_vy,
      ih (i + 1)]

theorem animationModeString_truthy (m : AnimationMode) :
    jsTruthyString (animationModeString m) = true := by
  cases m <;> decide

/-- C1 (refutation of the wiring): Canvas.tsx passes the animation-mode
string into the boolean stationaryMode parameter of
addAnimationProperties; every mode string is truthy, so as wired every
shape gets velocity components zero for every animation mode, not only
for stationary mode as the claim states. -/
theorem C1_wired_velocities_always_zero (shapes : List RoleShape) (controls : Controls)
    (seed : Int) :
    (canvasAddAnimationProperties shapes controls seed).map (fun a => (a.vx, a.vy))
      = shapes.map (fun _ => ((0 : ℝ), 0)) := by
  rw [canvasAddAnimationProperties, addAnimationProperties, animationModeString_truthy]
  exact stateMap_anim_velocities_zero controls.chaos controls.motion shapes 0 seed

/-! ## Claim C5 -/

/-- C5: determinism of the composed pipeline: in the embedding all state
is explicit, so two invocations of generateComposition followed by
addAnimationProperties with identical arguments yield identical shape
collections. -/
theorem C5_determinism (fontTable : Char → Option (List PathPoint)) (cfg : GeneratorConfig)
    (chaos motion : ℚ) (seed : Int) (stationaryMode : Bool) :
    generateComposition fontTable cfg = generateComposition fontTable cfg ∧
    addAnimationProperties (generateComposition fontTable cfg) chaos motion seed stationaryMode
      = addAnimationProperties (generateComposition fontTable cfg) chaos motion seed
        stationaryMode :=
  ⟨rfl, rfl⟩

/-! ## Claim C4 -/

/-- C4: count formulas in free-form mode: density 0 gives exactly one
anchor and nothing else; density 100 gives 4 anchors, 15 accents and 50
texture shapes; texture generation is skipped whenever density < 40. -/
theorem C4_count_formulas (fontTable : Char → Option (List PathPoint))
    (cfg : GeneratorConfig) (htext : cfg.text = none) :
    (cfg.controls.density = 0 →
      countRole Role.anchor (generateComposition fontTable cfg) = 1 ∧
      countRole Role.accent (generateComposition fontTable cfg) = 0 ∧
      countRole Role.texture (generateComposition fontTable cfg) = 0) ∧
    (cfg.controls.density = 100 →
      countRole Role.anchor (generateComposition fontTable cfg) = 4 ∧
      countRole Role.accent (generateComposition fontTable cfg) = 15 ∧
      countRole Role.texture (generateComposition fontTable cfg) = 50) ∧
    (cfg.controls.density < 40 →
      countRole Role.texture (generateComposition fontTable cfg) = 0) := by
  have hmode : textModeSelected cfg.text = false := by rw [htext]; rfl
  have hcomp : generateComposition fontTable cfg = freeFormComposition cfg := by
    rw [generateComposition, hmode]; simp
  rw [hcomp]
  obtain ⟨ha, hb, hc⟩ := freeForm_counts cfg
  refine ⟨fun h0 => ⟨?_, ?_, ?_⟩, fun h100 => ⟨?_, ?_, ?_⟩, fun hlt => ?_⟩
  · rw [ha]; unfold anchorCount; rw [h0]; norm_num
  · rw [hb]; unfold accentCount; rw [h0]; norm_num
  · rw [hc, if_pos (by rw [h0]; norm_num)]
  · rw [ha]; unfold anchorCount; rw [h100]; norm_num; decide
  · rw [hb]; unfold accentCount; rw [h100]; norm_num; decide
  · rw [hc, if_neg (by rw [h100]; norm_num)]
    unfold textureCount; rw [h100]; norm_num; decide
  · rw [hc, if_pos hlt]

/-- Witness for C4 at density 0 and density 100. -/
theorem C4_count_formulas_witness :
    countRole Role.anchor (generateComposition sampleFont (sampleConfig 0 none)) = 1 ∧
    countRole Role.texture (generateComposition sampleFont (sampleConfig 100 none)) = 50 :=
  ⟨((C4_count_formulas sampleFont (sampleConfig 0 none) rfl).1 rfl).1,
   ((C4_count_formulas sampleFont (sampleConfig 100 none) rfl).2.1 rfl).2.2⟩

/-! ## Claim C2 -/

theorem generateTextComposition_roles (fontTable : Char → Option (List PathPoint))
    (cfg : GeneratorConfig) :
    ∀ e ∈ generateTextComposition fontTable cfg, e.role = Role.anchor := by
  intro e he
  rw [generateTextComposition] at he
  rcases ht : cfg.text with _ | t
  · rw [ht] at he; simp at he
  · rw [ht] at he
    simp only [] at he
    split_ifs at he with hp
    · simp at he
    · exact stateLoop_mem _ (fun e => e.role = Role.anchor)
        (fun j t2 => textShapeAtIndex_role _ _ _ _ _ _ j t2) _ _ _ e he

/-- C2 (amended): every text-mode shape has role anchor; free-form mode
produces shapes of all three roles exactly when density ≥ 41.2, the least
density with a positive texture count (so integer densities ≥ 42), and
produces no texture shapes for density < 41.2, only anchors and
accents. -/
theorem C2_role_structure (fontTable : Char → Option (List PathPoint))
    (cfg : GeneratorConfig) :
    (textModeSelected cfg.text = true →
      (generateComposition fontTable cfg).map (fun e => e.role)
        = List.replicate (generateComposition fontTable cfg).length Role.anchor) ∧
    (cfg.text = none → (41.2 : ℚ) ≤ cfg.controls.density →
      countRole Role.anchor (generateComposition fontTable cfg) ≠ 0 ∧
      countRole Role.accent (generateComposition fontTable cfg) ≠ 0 ∧
      countRole Role.texture (generateComposition fontTable cfg) ≠ 0) ∧
    (cfg.text = none → cfg.controls.density < (41.2 : ℚ) →
      countRole Role.texture (generateComposition fontTable cfg) = 0) := by
  refine ⟨fun hmode => ?_, fun htext hd => ?_, fun htext hd => ?_⟩
  · rw [List.eq_replicate_iff]
    refine ⟨by simp, fun b hb => ?_⟩
    rw [List.mem_map] at hb
    obtain ⟨e, he, rfl⟩ := hb
    rw [generateComposition, hmode] at he
    simp only [if_true] at he
    exact generateTextComposition_roles fontTable cfg e he
  · have hmode : textModeSelected cfg.text = false := by rw [htext]; rfl
    have hcomp : generateComposition fontTable cfg = freeFormComposition cfg := by
      rw [generateComposition, hmode]; simp
    rw [hcomp]
    obtain ⟨ha, hb, hc⟩ := freeForm_counts cfg
    refine ⟨?_, ?_, ?_⟩
    · rw [ha]
      unfold anchorCount
      have h1 := le_max_left (1 : ℤ) ⌊1 + cfg.controls.density / 100 * 3⌋
      omega
    · rw [hb]
      unfold accentCount
      have h1 : (1 : ℤ) ≤ ⌊cfg.controls.density / 100 * 15⌋ := by
        rw [Int.le_floor]
        push_cast
        linarith
      omega
    · rw [hc, if_neg (by linarith)]
      unfold textureCount
      have h1 : (1 : ℤ) ≤ ⌊(cfg.controls.density - 40) / 60 * 50⌋ := by
        rw [Int.le_floor]
        push_cast
        linarith
      omega
  · have hmode : textModeSelected cfg.text = false := by rw [htext]; rfl
    have hcomp : generateComposition fontTable cfg = freeFormComposition cfg := by
      rw [generateComposition, hmode]; simp
    rw [hcomp, (freeForm_counts cfg).2.2]
    split_ifs with h40
    · rfl
    · unfold textureCount
      have h1 : ⌊(cfg.controls.density - 40) / 60 * 50⌋ < 1 := by
        rw [Int.floor_lt]
        push_cast
        linarith
      omega

/-- C2 counterexample: at density 40 (which is ≥ 40) the texture count is
zero, so the free-form composition does not contain all three roles. -/
theorem C2_density40_no_texture :
    countRole Role.texture (generateComposition sampleFont (sampleConfig 40 none)) = 0 := by
  have hcomp : generateComposition sampleFont (sampleConfig 40 none)
      = freeFormComposition (sampleConfig 40 none) := by
    rw [generateComposition, show textModeSelected (sampleConfig 40 none).text = false
      from rfl]
    simp
  rw [hcomp, (freeForm_counts _).2.2]
  rw [if_neg (by norm_num [sampleConfig, sampleControls])]
  unfold textureCount
  norm_num [sampleConfig, sampleControls]

/-- Witness for C2: all three roles present at density 50, no texture at
density 30, and a text-mode composition whose members are all anchors. -/
theorem C2_role_structure_witness :
    countRole Role.texture (generateComposition sampleFont (sampleConfig 50 none)) ≠ 0 ∧
    countRole Role.texture (generateComposition sampleFont (sampleConfig 30 none)) = 0 ∧
    (generateComposition sampleFont (sampleConfig 50 (some "HI"))).map (fun e => e.role)
      = List.replicate (generateComposition sampleFont (sampleConfig 50 (some "HI"))).length
          Role.anchor :=
  ⟨((C2_role_structure sampleFont (sampleConfig 50 none)).2.1 rfl
      (show (41.2 : ℚ) ≤ 50 by norm_num)).2.2,
   (C2_role_structure sampleFont (sampleConfig 30 none)).2.2 rfl
      (show (30 : ℚ) < 41.2 by norm_num),
   (C2_role_structure sampleFont (sampleConfig 50 (some "HI"))).1 (by decide)⟩

/-! ## Claim C3 -/

theorem toUpper_of_whitespace {c : Char} (h : c.isWhitespace = true) : c.toUpper = c := by
  simp [Char.isWhitespace] at h
  rcases h with ((rfl | rfl) | rfl) | rfl <;> decide

theorem getTextPathPoints_bounds_length (fontTable : Char → Option (List PathPoint))
    (text : String) (w h d : ℚ) (hne : text.data ≠ []) :
    ((getTextPathPoints fontTable text w h d).2).length = text.length := by
  rw [getTextPathPoints]
  rw [if_neg (by
    simp only [List.length_map, List.length_eq_zero]
    exact hne)]
  simp only [List.length_map, List.enum_length]
  rfl

theorem getTextPathPoints_ws_points (fontTable : Char → Option (List PathPoint))
    (text : String) (w h d : ℚ)
    (hws : ∀ c ∈ text.data, c.isWhitespace = true)
    (htab : ∀ c : Char, c.isWhitespace = true →
      fontTable c = if c = ' ' then some [] else none) :
    (getTextPathPoints fontTable text w h d).1 = [] := by
  rw [getTextPathPoints]
  split_ifs with h0
  · rfl
  · simp only [List.map_map]
    rw [List.flatten_eq_nil_iff]
    intro l hl
    rw [List.mem_map] at hl
    obtain ⟨ic, hic, rfl⟩ := hl
    have hch : ic.2 ∈ text.data.map Char.toUpper :=
      List.getElem?_mem (List.mem_enum_iff_getElem?.mp hic)
    rw [List.mem_map] at hch
    obtain ⟨c0, hc0, hcu⟩ := hch
    have hws0 : c0.isWhitespace = true := hws c0 hc0
    have hceq : ic.2 = c0 := by rw [← hcu, toUpper_of_whitespace hws0]
    have htabc : fontTable ic.2 = if ic.2 = ' ' then some [] else none := by
      rw [hceq]; exact htab c0 hws0
    simp only [Function.comp]
    rw [htabc]
    split_ifs with hsp
    · simp [sampleStride]
    · rfl

theorem freeFormComposition_ne_nil (cfg : GeneratorConfig) :
    freeFormComposition cfg ≠ [] := by
  intro hnil
  have hcount := (freeForm_counts cfg).1
  rw [hnil] at hcount
  have h1 : 1 ≤ anchorCount cfg.controls := by
    unfold anchorCount
    have := le_max_left (1 : ℤ) ⌊1 + cfg.controls.density / 100 * 3⌋
    omega
  simp [countRole] at hcount
  omega

/-- C3 (amended): only fully empty text yields the empty result
{points: [], letterBounds: []}; whitespace-only non-empty text yields an
empty point list but one letter bound per character. Whitespace-only or
empty text fails the text-mode test of generateComposition, which then
runs free-form generation; it is generateTextComposition itself that
returns the empty list when the path points are empty, without any
free-form fallback. -/
theorem C3_whitespace_handling (fontTable : Char → Option (List PathPoint))
    (w h d : ℚ) (text : String) (cfg : GeneratorConfig) :
    (getTextPathPoints fontTable "" w h d = (([], []) : List PathPoint × List LetterBound)) ∧
    (text.data ≠ [] → (∀ c ∈ text.data, c.isWhitespace = true) →
      (∀ c : Char, c.isWhitespace = true →
        fontTable c = if c = ' ' then some [] else none) →
      (getTextPathPoints fontTable text w h d).1 = [] ∧
      ((getTextPathPoints fontTable text w h d).2).length = text.length) ∧
    (textModeSelected cfg.text = false →
      generateComposition fontTable cfg = freeFormComposition cfg) ∧
    (∀ t : String, cfg.text = some t →
      (getTextPathPoints fontTable t cfg.width cfg.height cfg.controls.density).1 = [] →
      generateTextComposition fontTable cfg = []) := by
  refine ⟨rfl, fun hne hws htab => ⟨getTextPathPoints_ws_points fontTable text w h d hws htab,
    getTextPathPoints_bounds_length fontTable text w h d hne⟩, fun hmode => ?_,
    fun t ht hpts => ?_⟩
  · rw [generateComposition, hmode]
    simp
  · rw [generateTextComposition, ht]
    simp [hpts]

/-- Witness for C3 at the single-space text: empty points, one letter
bound. -/
theorem C3_whitespace_handling_witness :
    (getTextPathPoints sampleFont " " 800 800 100).1 = [] ∧
    ((getTextPathPoints sampleFont " " 800 800 100).2).length = " ".length :=
  (C3_whitespace_handling sampleFont 800 800 100 " " (sampleConfig 50 none)).2.1
    (by decide) (by decide) (fun c hc => by
      simp [Char.isWhitespace] at hc
      rcases hc with ((rfl | rfl) | rfl) | rfl <;> decide)

/-- C3 counterexample: for the single-space text the letter bounds are
not empty, the text-mode test fails, and generateComposition produces a
non-empty free-form composition. -/
theorem C3_single_space_counterexample :
    (getTextPathPoints sampleFont " " 800 800 100).2 ≠ [] ∧
    textModeSelected (some " ") = false ∧
    generateComposition sampleFont (sampleConfig 50 (some " "))
      = freeFormComposition (sampleConfig 50 (some " ")) ∧
    freeFormComposition (sampleConfig 50 (some " ")) ≠ [] := by
  refine ⟨fun hnil => ?_, by decide, ?_, freeFormComposition_ne_nil _⟩
  · have hlen := getTextPathPoints_bounds_length sampleFont " " 800 800 100 (by decide)
    rw [hnil] at hlen
    exact absurd hlen (by decide)
  · rw [generateComposition,
      show textModeSelected (sampleConfig 50 (some " ")).text = false from by decide]
    simp

/-! ## Claim C8 -/

theorem hexDigitChar_isHex : ∀ n : Nat, n < 16 → (hexDigitVal (hexDigitChar n)).isSome = true := by
  decide

theorem varyChannel_le (ch : Nat) (adjust : ℚ) : varyChannel ch adjust ≤ 255 := by
  unfold varyChannel
  have h1 := min_le_left (255 : ℤ) (max 0 (jsRound ((ch : ℚ) * (1 + adjust))))
  omega

theorem isValidHexColor_encode (r g b : Nat) (hr : r ≤ 255) (hg : g ≤ 255) (hb : b ≤ 255) :
    isValidHexColor ("#" ++ hexByte r ++ hexByte g ++ hexByte b) = true := by
  have hd : ("#" ++ hexByte r ++ hexByte g ++ hexByte b).data
      = '#' :: [hexDigitChar (r / 16), hexDigitChar (r % 16), hexDigitChar (g / 16),
          hexDigitChar (g % 16), hexDigitChar (b / 16), hexDigitChar (b % 16)] := by
    simp [String.data_append, hexByte]
  have e1 := hexDigitChar_isHex (r / 16) (by omega)
  have e2 := hexDigitChar_isHex (r % 16) (by omega)
  have e3 := hexDigitChar_isHex (g / 16) (by omega)
  have e4 := hexDigitChar_isHex (g % 16) (by omega)
  have e5 := hexDigitChar_isHex (b / 16) (by omega)
  have e6 := hexDigitChar_isHex (b % 16) (by omega)
  rw [isValidHexColor, hd]
  simp [e1, e2, e3, e4, e5, e6]

theorem hexColor_inv (c : String) (h : isValidHexColor c = true) :
    ∃ d1 d2 d3 d4 d5 d6 : Char, c.data = ['#', d1, d2, d3, d4, d5, d6] ∧
      (hexDigitVal d1).isSome = true ∧ (hexDigitVal d2).isSome = true ∧
      (hexDigitVal d3).isSome = true ∧ (hexDigitVal d4).isSome = true ∧
      (hexDigitVal d5).isSome = true ∧ (hexDigitVal d6).isSome = true := by
  unfold isValidHexColor at h
  split at h
  case h_2 => exact absurd h (by simp)
  case h_1 rest heq =>
    rw [Bool.and_eq_true, beq_iff_eq, List.all_eq_true] at h
    obtain ⟨hl, hall⟩ := h
    rcases rest with _ | ⟨d1, rest⟩; · simp at hl
    rcases rest with _ | ⟨d2, rest⟩; · simp at hl
    rcases rest with _ | ⟨d3, rest⟩; · simp at hl
    rcases rest with _ | ⟨d4, rest⟩; · simp at hl
    rcases rest with _ | ⟨d5, rest⟩; · simp at hl
    rcases rest with _ | ⟨d6, rest⟩; · simp at hl
    rcases rest with _ | ⟨d7, rest⟩
    · exact ⟨d1, d2, d3, d4, d5, d6, heq, hall d1 (by simp), hall d2 (by simp),
        hall d3 (by simp), hall d4 (by simp), hall d5 (by simp), hall d6 (by simp)⟩
    · simp at hl

theorem lowerHexColor_inv (c : String) (h : isLowerHexColor c = true) :
    ∃ d1 d2 d3 d4 d5 d6 : Char, c.data = ['#', d1, d2, d3, d4, d5, d6] ∧
      d1 ∈ lowerHexDigits ∧ d2 ∈ lowerHexDigits ∧ d3 ∈ lowerHexDigits ∧
      d4 ∈ lowerHexDigits ∧ d5 ∈ lowerHexDigits ∧ d6 ∈ lowerHexDigits := by
  unfold isLowerHexColor at h
  split at h
  case h_2 => exact absurd h (by simp)
  case h_1 rest heq =>
    rw [Bool.and_eq_true, beq_iff_eq, List.all_eq_true] at h
    obtain ⟨hl, hall⟩ := h
    have hmem : ∀ d ∈ rest, d ∈ lowerHexDigits := by
      intro d hd
      have := hall d hd
      simpa using this
    rcases rest with _ | ⟨d1, rest⟩; · simp at hl
    rcases rest with _ | ⟨d2, rest⟩; · simp at hl
    rcases rest with _ | ⟨d3, rest⟩; · simp at hl
    rcases rest with _ | ⟨d4, rest⟩; · simp at hl
    rcases rest with _ | ⟨d5, rest⟩; · simp at hl
    rcases rest with _ | ⟨d6, rest⟩; · simp at hl
    rcases rest with _ | ⟨d7, rest⟩
    · exact ⟨d1, d2, d3, d4, d5, d6, heq, hmem d1 (by simp), hmem d2 (by simp),
        hmem d3 (by simp), hmem d4 (by simp), hmem d5 (by simp), hmem d6 (by simp)⟩
    · simp at hl

theorem jsRound_natCast (n : Nat) : jsRound ((n : ℚ)) = (n : ℤ) := by
  unfold jsRound
  rw [Int.floor_eq_iff]
  constructor <;> push_cast <;> linarith

theorem varyChannel_zero (ch : Nat) (h : ch ≤ 255) : varyChannel ch 0 = ch := by
  unfold varyChannel
  rw [show ((ch : ℚ) * (1 + 0)) = (ch : ℚ) by ring, jsRound_natCast]
  omega

theorem hexPair_roundtrip (c1 c2 : Char) (h1 : c1 ∈ lowerHexDigits)
    (h2 : c2 ∈ lowerHexDigits) :
    ∃ v1 v2 : Nat, hexDigitVal c1 = some v1 ∧ hexDigitVal c2 = some v2 ∧
      v1 ≤ 15 ∧ v2 ≤ 15 ∧
      hexByte (16 * v1 + v2) = (⟨[c1, c2]⟩ : String) := by
  simp only [lowerHexDigits, List.mem_append, List.mem_cons, List.not_mem_nil,
    or_false] at h1 h2
  rcases h1 with
    (((rfl | rfl | rfl | rfl | rfl | rfl) | (rfl | rfl | rfl | rfl | rfl | rfl)) |
      (rfl | rfl | rfl | rfl)) <;>
  rcases h2 with
    (((rfl | rfl | rfl | rfl | rfl | rfl) | (rfl | rfl | rfl | rfl | rfl | rfl)) |
      (rfl | rfl | rfl | rfl)) <;>
    exact ⟨_, _, rfl, rfl, by decide, by decide, by decide⟩

/-- C8 (amended): varyColor on a valid 6-hex-digit color always returns a
valid 6-hex-digit lowercase color string (each channel clamped to a
byte); for variation 0 it returns the input unchanged provided the input
digits are lowercase, since lowercase re-encoding normalizes uppercase
digits (same color value, different string). -/
theorem C8_varyColor_wellformed (c : String) (variation : ℚ) (seed : Int) :
    (isValidHexColor c = true →
      isValidHexColor (varyColor c variation seed) = true) ∧
    (isLowerHexColor c = true → varyColor c 0 seed = c) := by
  constructor
  · intro hv
    obtain ⟨d1, d2, d3, d4, d5, d6, hd, h1, h2, h3, h4, h5, h6⟩ := hexColor_inv c hv
    obtain ⟨a1, ha1⟩ := Option.isSome_iff_exists.mp h1
    obtain ⟨a2, ha2⟩ := Option.isSome_iff_exists.mp h2
    obtain ⟨a3, ha3⟩ := Option.isSome_iff_exists.mp h3
    obtain ⟨a4, ha4⟩ := Option.isSome_iff_exists.mp h4
    obtain ⟨a5, ha5⟩ := Option.isSome_iff_exists.mp h5
    obtain ⟨a6, ha6⟩ := Option.isSome_iff_exists.mp h6
    have hp1 : parseHexByte d1 d2 = some (16 * a1 + a2) := by simp [parseHexByte, ha1, ha2]
    have hp2 : parseHexByte d3 d4 = some (16 * a3 + a4) := by simp [parseHexByte, ha3, ha4]
    have hp3 : parseHexByte d5 d6 = some (16 * a5 + a6) := by simp [parseHexByte, ha5, ha6]
    have hvc : varyColor c variation seed
        = "#" ++ hexByte (varyChannel (16 * a1 + a2) (colorAdjust variation seed))
            ++ hexByte (varyChannel (16 * a3 + a4) (colorAdjust variation seed))
            ++ hexByte (varyChannel (16 * a5 + a6) (colorAdjust variation seed)) := by
      rw [varyColor, hd]
      simp [hp1, hp2, hp3]
    rw [hvc]
    exact isValidHexColor_encode _ _ _ (varyChannel_le _ _) (varyChannel_le _ _)
      (varyChannel_le _ _)
  · intro hlc
    obtain ⟨d1, d2, d3, d4, d5, d6, hd, m1, m2, m3, m4, m5, m6⟩ := lowerHexColor_inv c hlc
    obtain ⟨v1, v2, hv1, hv2, hb1, hb2, hrt1⟩ := hexPair_roundtrip d1 d2 m1 m2
    obtain ⟨v3, v4, hv3, hv4, hb3, hb4, hrt2⟩ := hexPair_roundtrip d3 d4 m3 m4
    obtain ⟨v5, v6, hv5, hv6, hb5, hb6, hrt3⟩ := hexPair_roundtrip d5 d6 m5 m6
    have hp1 : parseHexByte d1 d2 = some (16 * v1 + v2) := by simp [parseHexByte, hv1, hv2]
    have hp2 : parseHexByte d3 d4 = some (16 * v3 + v4) := by simp [parseHexByte, hv3, hv4]
    have hp3 : parseHexByte d5 d6 = some (16 * v5 + v6) := by simp [parseHexByte, hv5, hv6]
    have hadj : colorAdjust 0 seed = 0 := by unfold colorAdjust; ring
    have hvc : varyColor c 0 seed
        = "#" ++ hexByte (varyChannel (16 * v1 + v2) 0)
            ++ hexByte (varyChannel (16 * v3 + v4) 0)
            ++ hexByte (varyChannel (16 * v5 + v6) 0) := by
      rw [varyColor, hd]
      simp [hp1, hp2, hp3, hadj]
    rw [hvc, varyChannel_zero _ (by omega), varyChannel_zero _ (by omega),
      varyChannel_zero _ (by omega), hrt1, hrt2, hrt3]
    have : ("#" ++ (⟨[d1, d2]⟩ : String) ++ (⟨[d3, d4]⟩ : String)
        ++ (⟨[d5, d6]⟩ : String)).data = c.data := by
      simp [String.data_append, hd]
    exact congrArg String.mk (by simpa [String.data_append] using this)

/-- C8 counterexample: on an uppercase valid color the variation-0 call
re-encodes in lowercase, so the string is not returned unchanged. -/
theorem C8_uppercase_counterexample : varyColor ("#FF0000") 0 0 ≠ "#FF0000" := by
  have hd : ("#FF0000" : String).data = ['#', 'F', 'F', '0', '0', '0', '0'] := rfl
  have hp1 : parseHexByte 'F' 'F' = some 255 := rfl
  have hp2 : parseHexByte '0' '0' = some 0 := rfl
  have hadj : colorAdjust 0 0 = 0 := by unfold colorAdjust; ring
  have hvc : varyColor ("#FF0000") 0 0
      = "#" ++ hexByte (varyChannel 255 0) ++ hexByte (varyChannel 0 0)
          ++ hexByte (varyChannel 0 0) := by
    rw [varyColor, hd]
    simp [hp1, hp2, hadj]
  rw [hvc, varyChannel_zero 255 (by omega), varyChannel_zero 0 (by omega)]
  decide

/-- Witness for C8: validity on a perturbed palette color and identity at
variation 0 on a lowercase color. -/
theorem C8_varyColor_wellformed_witness :
    isValidHexColor (varyColor ("#58a6ff") 37 123) = true ∧
    varyColor ("#58a6ff") 0 (-5) = "#58a6ff" :=
  ⟨(C8_varyColor_wellformed ("#58a6ff") 37 123).1 (by decide),
   (C8_varyColor_wellformed ("#58a6ff") 0 (-5)).2 (by decide)⟩

/-! ## Claim C9 -/

theorem neg_tmod_eq (a b : Int) : Int.tmod (-a) b = -(Int.tmod a b) := by
  rw [Int.tmod_def, Int.tmod_def, Int.neg_tdiv]
  ring

theorem tmod_bounds (a : Int) : -(233280 : ℤ) < Int.tmod a 233280 ∧
    Int.tmod a 233280 < 233280 := by
  rcases le_or_lt 0 a with ha | ha
  · have h1 := Int.tmod_nonneg (233280 : ℤ) ha
    have h2 := Int.tmod_lt_of_pos a (show (0 : ℤ) < 233280 by norm_num)
    constructor <;> linarith
  · have hneg : Int.tmod a 233280 = -(Int.tmod (-a) 233280) := by
      have := neg_tmod_eq (-a) 233280
      rw [neg_neg] at this
      rw [this]
    have h1 := Int.tmod_nonneg (233280 : ℤ) (show (0 : ℤ) ≤ -a by linarith)
    have h2 := Int.tmod_lt_of_pos (-a) (show (0 : ℤ) < 233280 by norm_num)
    rw [hneg]
    constructor <;> linarith

/-- C9 (amended): the linear-congruential hash of varyColor lies in [0, 1)
for all seeds whose dividend seed·9301+49297 is non-negative, in
particular all non-negative seeds, and the variation-100 adjustment is
then within [-0.3, 0.3); the JS remainder keeps the dividend sign, so for
any integer seed the hash is only guaranteed to lie in (-1, 1). -/
theorem C9_colorHash_range (seed : Int) :
    (0 ≤ seed → (0 ≤ colorHash seed ∧ colorHash seed < 1) ∧
      (-0.3 ≤ colorAdjust 100 seed ∧ colorAdjust 100 seed < 0.3)) ∧
    (-1 < colorHash seed ∧ colorHash seed < 1) := by
  have hadj : colorAdjust 100 seed = (colorHash seed - 0.5) * 0.6 := by
    unfold colorAdjust; ring
  constructor
  · intro hs
    have hdvd : (0 : ℤ) ≤ seed * 9301 + 49297 := by positivity
    have h1 := Int.tmod_nonneg (233280 : ℤ) hdvd
    have h2 := Int.tmod_lt_of_pos (seed * 9301 + 49297) (show (0 : ℤ) < 233280 by norm_num)
    have hlo : (0 : ℚ) ≤ colorHash seed := by
      unfold colorHash jsMod
      positivity
    have hhi : colorHash seed < 1 := by
      unfold colorHash jsMod
      rw [div_lt_one (by norm_num)]
      exact_mod_cast h2
    refine ⟨⟨hlo, hhi⟩, ?_, ?_⟩ <;> rw [hadj] <;> nlinarith
  · have hb := tmod_bounds (seed * 9301 + 49297)
    constructor
    · unfold colorHash jsMod
      rw [show (-1 : ℚ) = -233280 / 233280 by norm_num, div_lt_div_iff_of_pos_right]
      · exact_mod_cast hb.1
      · norm_num
    · unfold colorHash jsMod
      rw [div_lt_one (by norm_num)]
      exact_mod_cast hb.2

/-- C9 counterexample: at seed -10 the dividend is negative, the JS
remainder is negative, the hash falls outside [0, 1) and the variation-100
adjustment falls below the claimed -0.3 bound. -/
theorem C9_negative_seed_counterexample :
    colorHash (-10) < 0 ∧ colorAdjust 100 (-10) < -0.3 := by
  have hh : colorHash (-10) = (-43713 : ℚ) / 233280 := by
    unfold colorHash
    rw [show jsMod ((-10) * 9301 + 49297) 233280 = -43713 from by decide]
    norm_num
  constructor
  · rw [hh]; norm_num
  · have hadj : colorAdjust 100 (-10) = (colorHash (-10) - 0.5) * 0.6 := by
      unfold colorAdjust; ring
    rw [hadj, hh]
    norm_num

/-- Witness for C9 at the non-negative seed 7. -/
theorem C9_colorHash_range_witness :
    (0 ≤ colorHash 7 ∧ colorHash 7 < 1) ∧
    (-0.3 ≤ colorAdjust 100 7 ∧ colorAdjust 100 7 < 0.3) :=
  (C9_colorHash_range 7).1 (by norm_num)

/-! ## Claim C10 -/

theorem textShapeAtIndex_rotation_flow (c : Controls) (p : Palette) (seed : Int)
    (points : List PathPoint) (size chaosOffset : ℚ) (i : Nat) (s : RngState)
    (hmode : c.animationMode = AnimationMode.drift)
    (hshape : c.pathShape = PathShapeType.semicircle ∨
      c.pathShape = PathShapeType.triangle) :
    (textShapeAtIndex c p seed points size chaosOffset i s).2.rotation
      = (c.flowAngle : ℝ) := by
  rcases hshape with hs | hs <;>
    simp [textShapeAtIndex, hmode, hs, createShapeAtPoint, createSemicircle, createTriangle]

/-- C10: semicircles and triangles built by createShapeAtPoint take the
flow angle as their rotation whenever one is supplied, discarding the
chaos jitter, and use the jittered rotation when none is; consequently in
text mode with drift animation every semicircle or triangle shape has
rotation equal to the flow angle. -/
theorem C10_flow_angle_orientation (x y : ℝ) (size : ℚ) (color : String) (rotation : ℝ)
    (np : Option PathPoint) (fa : ℚ) (fontTable : Char → Option (List PathPoint))
    (cfg : GeneratorConfig) :
    ((createShapeAtPoint x y size PathShapeType.semicircle color rotation np
        (some fa)).rotation = (fa : ℝ) ∧
     (createShapeAtPoint x y size PathShapeType.triangle color rotation np
        (some fa)).rotation = (fa : ℝ)) ∧
    ((createShapeAtPoint x y size PathShapeType.semicircle color rotation np
        none).rotation = rotation ∧
     (createShapeAtPoint x y size PathShapeType.triangle color rotation np
        none).rotation = rotation) ∧
    (cfg.controls.animationMode = AnimationMode.drift →
      (cfg.controls.pathShape = PathShapeType.semicircle ∨
        cfg.controls.pathShape = PathShapeType.triangle) →
      (generateTextComposition fontTable cfg).map (fun e => e.rotation)
        = List.replicate (generateTextComposition fontTable cfg).length
            ((cfg.controls.flowAngle : ℚ) : ℝ)) := by
  refine ⟨⟨rfl, rfl⟩, ⟨rfl, rfl⟩, fun hmode hshape => ?_⟩
  rw [List.eq_replicate_iff]
  refine ⟨by simp, fun b hb => ?_⟩
  rw [List.mem_map] at hb
  obtain ⟨e, he, rfl⟩ := hb
  rw [generateTextComposition] at he
  rcases ht : cfg.text with _ | t
  · rw [ht] at he; simp at he
  · rw [ht] at he
    simp only [] at he
    split_ifs at he with hp
    · simp at he
    · exact stateLoop_mem _ (fun e => e.rotation = ((cfg.controls.flowAngle : ℚ) : ℝ))
        (fun j t2 => textShapeAtIndex_rotation_flow _ _ _ _ _ _ j t2 hmode hshape)
        _ _ _ e he

/-- Witness for C10: the drift-mode text composition of the sample
configuration has all rotations equal to its flow angle. -/
theorem C10_flow_angle_orientation_witness :
    (generateTextComposition sampleFont driftConfig).map (fun e => e.rotation)
      = List.replicate (generateTextComposition sampleFont driftConfig).length
          ((driftConfig.controls.flowAngle : ℚ) : ℝ) :=
  (C10_flow_angle_orientation 0 0 1 ("x") 0 none 0 sampleFont driftConfig).2.2 rfl
    (Or.inl rfl)

end Sidcode
